import Mathlib

/-!
# NetBox Terraform provider: resource handlers

A shallow embedding of the CRUD handlers of

* `netbox/resource_netbox_cluster_group.go`
* `netbox/resource_netbox_device_role.go`
* `netbox/resource_netbox_custom_field.go`

Conventions of the embedding.

* `*schema.ResourceData` is a record: the resource ID and one field per schema
  attribute.  An attribute is `none` when it holds no value and `some v` when it
  does; `Get` reads it with the zero value of its type as the fallback and
  `GetOk` additionally reports whether the value is present and not the zero
  value.  A set of strings is the list of its members, `[]` for the empty
  set (hash ordering and de-duplication of `schema.Set` are not represented).
* A Go pointer field (`*string`, `*int64`) is an `Option`; a Go slice that is
  compared with `nil` is an `Option (List _)`, one that is only appended to is
  a `List`.
* Go `int`/`int64` values are `Int`; the only conversions applied by the code
  are `int` to `int64` and back, which are the identity on a 64-bit platform.
* The generated API client is a record of response functions, and every
  handler returns the final resource data, the list of requests it issued in
  order, and its outcome (the returned `error`, or a run-time panic).
-/

namespace Netbox

/-! ## `strconv` -/

/-- The two error kinds of `strconv.NumError`. -/
inductive NumError where
  | ErrSyntax
  | ErrRange
deriving DecidableEq, Repr

/-- The constant `maxUint64` of `strconv`. -/
def maxUint64 : Nat := 2 ^ 64 - 1

/-- The body of the digit loop of `strconv.ParseUint(s, 10, 64)`, on the
remaining input and the accumulator `n`.  Every character that is not a decimal
digit ends the loop with a syntax error (a letter is a digit value of at least
ten, anything else is the `default` case; each byte of a multi-byte character is
in the `default` case as well, so reading characters instead of bytes changes
nothing).  Arithmetic on `uint64` is arithmetic modulo `2 ^ 64`. -/
def parseUintLoop : List Char → Nat → Nat × Option NumError
  | [], n => (n, none)
  | c :: cs, n =>
    if 48 ≤ c.toNat ∧ c.toNat ≤ 57 then
      let d := c.toNat - 48
      let cutoff := maxUint64 / 10 + 1
      if n ≥ cutoff then
        (maxUint64, some .ErrRange)
      else
        let n10 := (n * 10) % 2 ^ 64
        let n1 := (n10 + d) % 2 ^ 64
        if n1 < n10 ∨ n1 > maxUint64 then
          (maxUint64, some .ErrRange)
        else
          parseUintLoop cs n1
    else
      (0, some .ErrSyntax)

/-- Go `strconv.ParseUint(s, 10, 64)`, on the characters of `s`. -/
def ParseUint (s : List Char) : Nat × Option NumError :=
  match s with
  | [] => (0, some .ErrSyntax)
  | _ => parseUintLoop s 0

/-- Conversion `int64(u)` of a `uint64`. -/
def int64OfUint64 (u : Nat) : Int :=
  if u % 2 ^ 64 < 2 ^ 63 then ((u % 2 ^ 64 : Nat) : Int) else ((u % 2 ^ 64 : Nat) : Int) - 2 ^ 64

/-- Negation `-n` of an `int64`, which wraps at the minimum value. -/
def negInt64 (n : Int) : Int :=
  if n = -(2 ^ 63) then n else -n

/-- Go `strconv.ParseInt(s, 10, 64)`: the value and the error. -/
def ParseInt (s : String) : Int × Option NumError :=
  match s.data with
  | [] => (0, some .ErrSyntax)
  | c :: cs =>
    let neg := decide (c = '-')
    let rest := if c = '+' then cs else if c = '-' then cs else c :: cs
    let (un, err) := ParseUint rest
    if err = some .ErrSyntax then
      (0, err)
    else
      let cutoff : Nat := 2 ^ 63
      if !neg && decide (un ≥ cutoff) then
        (((cutoff - 1 : Nat) : Int), some .ErrRange)
      else if neg && decide (un > cutoff) then
        (-((cutoff : Nat) : Int), some .ErrRange)
      else
        let n := int64OfUint64 un
        (if neg then negInt64 n else n, none)

/-- The decimal digits of `u`, most significant first, in front of `acc`: the
loop of `strconv.formatBits` for base ten.  `fuel` bounds the number of digits
written. -/
def formatBits : Nat → Nat → List Char → List Char
  | 0, _, acc => acc
  | fuel + 1, u, acc =>
    if u < 10 then Char.ofNat (48 + u) :: acc
    else formatBits fuel (u / 10) (Char.ofNat (48 + u % 10) :: acc)

/-- Go `strconv.FormatInt(i, 10)` for an `int64` value `i`, whose magnitude has
at most twenty decimal digits. -/
def FormatInt (i : Int) : String :=
  if i < 0 then String.mk ('-' :: formatBits 20 (-i).toNat [])
  else String.mk (formatBits 20 i.toNat [])

/-! ## Errors and outcomes -/

/-- An `error` value returned by a call of the generated API client.  For the
read operation of a resource, `readDefault code` is the client's
`...ReadDefault` response (any HTTP status without a dedicated response type),
carrying the status code that its `Code()` method returns; `other` is every
error value of another dynamic type, such as a transport error. -/
inductive ApiError where
  | readDefault (code : Int)
  | other (msg : String)
deriving DecidableEq, Repr

/-- How a handler ends: it returns `nil`, returns an error obtained from the API
client, returns an error made by `fmt.Errorf`, or panics at run time. -/
inductive Outcome where
  | nil
  | apiErr (e : ApiError)
  | errorf (msg : String)
  | panic
deriving DecidableEq, Repr

/-- What a handler leaves behind: the resource data, the requests issued (in
order) and the outcome. -/
structure Result (D C : Type) where
  d : D
  trace : List C
  out : Outcome
deriving DecidableEq, Repr

/-! ## `schema.ResourceData` accessors -/

/-- The string `d.Get(key).(string)`: the value, or `""` when there is none. -/
def getString (v : Option String) : String := v.getD ""

/-- The boolean `d.Get(key).(bool)`. -/
def getBool (v : Option Bool) : Bool := v.getD false

/-- The integer `d.Get(key).(int)`. -/
def getInt (v : Option Int) : Int := v.getD 0

/-- The pair `d.GetOk(key)` for a string attribute: the value, and whether it is
present and different from the zero value `""`. -/
def getOkString (v : Option String) : String × Bool :=
  (v.getD "", decide (v.getD "" ≠ ""))

/-- The pair `d.GetOk(key)` for an integer attribute: the zero value is `0`. -/
def getOkInt (v : Option Int) : Int × Bool :=
  (v.getD 0, decide (v.getD 0 ≠ 0))

/-- The pair `d.GetOk(key)` for a set attribute: the members (as `Set.List()`
gives them), and whether the set is non-empty. -/
def getOkSet (v : List String) : List String × Bool :=
  (v, decide (v ≠ []))

/-- Modelled from the spec: the helper `strToPtr` is defined outside the given
sources; it is used to fill a `*string` field from a string, so it returns a
pointer to its argument. -/
def strToPtr (s : String) : Option String := some s

/-- Modelled from the spec: the helper `int64ToPtr` is defined outside the
given sources; it is used to fill a `*int64` field from an `int64`, so it
returns a pointer to its argument. -/
def int64ToPtr (i : Int) : Option Int := some i

/-- Go `len(s)` of a string: its length in bytes. -/
def goLen (s : String) : Nat := s.utf8ByteSize

/-! ## Cluster group -/

/-- The fields of `models.ClusterGroup` that the handlers read or write. -/
structure ClusterGroup where
  ID : Int
  Name : Option String
  Slug : Option String
  Description : String
deriving DecidableEq, Repr

/-- The zero value `models.ClusterGroup{}`. -/
def ClusterGroup.zero : ClusterGroup := ⟨0, none, none, ""⟩

/-- The schema attributes of `resourceNetboxClusterGroup`. -/
structure ClusterGroupAttrs where
  name : Option String
  slug : Option String
  description : Option String
deriving DecidableEq, Repr

/-- The resource data of a cluster group: the ID, the attributes as `Get` and
`GetOk` see them and `Set` writes them, and the attributes of the prior state,
with which `HasChange` compares. -/
structure ClusterGroupData where
  id : String
  attrs : ClusterGroupAttrs
  prior : ClusterGroupAttrs
deriving DecidableEq, Repr

/-- The requests of the cluster group handlers. -/
inductive ClusterGroupCall where
  | create (data : ClusterGroup)
  | read (id : Int)
  | partialUpdate (id : Int) (data : ClusterGroup)
  | delete (id : Int)
deriving DecidableEq, Repr

/-- The responses of `api.Virtualization` to the cluster group requests. -/
structure ClusterGroupAPI where
  create : ClusterGroup → Except ApiError ClusterGroup
  read : Int → Except ApiError ClusterGroup
  partialUpdate : Int → ClusterGroup → Except ApiError ClusterGroup
  delete : Int → Except ApiError Unit

/-- The check `StringLenBetween(0, 30)` that the schema puts on `slug`; it is
applied to a slug that is given. -/
def clusterGroupSlugValid (slug : Option String) : Bool :=
  match slug with
  | none => true
  | some s => decide (0 ≤ goLen s ∧ goLen s ≤ 30)

/-- The call `d.HasChange("description")`: the prior and the new value, each
read with `""` as the fallback, differ. -/
def ClusterGroupData.hasChangeDescription (d : ClusterGroupData) : Bool :=
  decide (getString d.prior.description ≠ getString d.attrs.description)

/-- Handler `resourceNetboxClusterGroupRead`. -/
def resourceNetboxClusterGroupRead (api : ClusterGroupAPI) (d : ClusterGroupData) :
    Result ClusterGroupData ClusterGroupCall :=
  let id := (ParseInt d.id).1
  match api.read id with
  | .error err =>
    match err with
    | .readDefault errorcode =>
      if errorcode = 404 then
        ⟨{ d with id := "" }, [.read id], .nil⟩
      else
        ⟨d, [.read id], .apiErr err⟩
    | .other _ => ⟨d, [.read id], .panic⟩
  | .ok payload =>
    let d1 := { d with attrs := { d.attrs with name := payload.Name } }
    let d2 := { d1 with attrs := { d1.attrs with slug := payload.Slug } }
    let d3 := { d2 with attrs := { d2.attrs with description := some payload.Description } }
    ⟨d3, [.read id], .nil⟩

/-- Handler `resourceNetboxClusterGroupCreate`. -/
def resourceNetboxClusterGroupCreate (api : ClusterGroupAPI) (d : ClusterGroupData) :
    Result ClusterGroupData ClusterGroupCall :=
  let data := ClusterGroup.zero
  let name := getString d.attrs.name
  let data := { data with Name := some name }
  let (slugValue, slugOk) := getOkString d.attrs.slug
  let slug := if !slugOk then name else slugValue
  let data := { data with Slug := some slug }
  let (description, ok) := getOkString d.attrs.description
  let data := if ok then { data with Description := description } else data
  match api.create data with
  | .error err => ⟨d, [.create data], .apiErr err⟩
  | .ok res =>
    let r := resourceNetboxClusterGroupRead api { d with id := FormatInt res.ID }
    ⟨r.d, .create data :: r.trace, r.out⟩

/-- Handler `resourceNetboxClusterGroupUpdate`. -/
def resourceNetboxClusterGroupUpdate (api : ClusterGroupAPI) (d : ClusterGroupData) :
    Result ClusterGroupData ClusterGroupCall :=
  let id := (ParseInt d.id).1
  let data := ClusterGroup.zero
  let name := getString d.attrs.name
  let data := { data with Name := some name }
  let (slugValue, slugOk) := getOkString d.attrs.slug
  let slug := if !slugOk then name else slugValue
  let data := { data with Slug := some slug }
  let data :=
    if d.hasChangeDescription then
      if getString d.attrs.description = "" then { data with Description := " " }
      else { data with Description := getString d.attrs.description }
    else data
  match api.partialUpdate id data with
  | .error err => ⟨d, [.partialUpdate id data], .apiErr err⟩
  | .ok _ =>
    let r := resourceNetboxClusterGroupRead api d
    ⟨r.d, .partialUpdate id data :: r.trace, r.out⟩

/-- Handler `resourceNetboxClusterGroupDelete`. -/
def resourceNetboxClusterGroupDelete (api : ClusterGroupAPI) (d : ClusterGroupData) :
    Result ClusterGroupData ClusterGroupCall :=
  let id := (ParseInt d.id).1
  match api.delete id with
  | .error err => ⟨d, [.delete id], .apiErr err⟩
  | .ok _ => ⟨d, [.delete id], .nil⟩

/-! ## Device role -/

/-- The fields of `models.DeviceRole` that the handlers read or write. -/
structure DeviceRole where
  ID : Int
  Name : Option String
  Slug : Option String
  Color : String
  VMRole : Bool
deriving DecidableEq, Repr

/-- The zero value `models.DeviceRole{}`. -/
def DeviceRole.zero : DeviceRole := ⟨0, none, none, "", false⟩

/-- The resource data of a device role: the ID and the schema attributes of
`resourceNetboxDeviceRole`. -/
structure DeviceRoleData where
  id : String
  name : Option String
  slug : Option String
  vm_role : Option Bool
  color_hex : Option String
deriving DecidableEq, Repr

/-- The requests of the device role handlers. -/
inductive DeviceRoleCall where
  | create (data : DeviceRole)
  | read (id : Int)
  | partialUpdate (id : Int) (data : DeviceRole)
  | delete (id : Int)
deriving DecidableEq, Repr

/-- The responses of `api.Dcim` to the device role requests. -/
structure DeviceRoleAPI where
  create : DeviceRole → Except ApiError DeviceRole
  read : Int → Except ApiError DeviceRole
  partialUpdate : Int → DeviceRole → Except ApiError DeviceRole
  delete : Int → Except ApiError Unit

/-- Handler `resourceNetboxDeviceRoleRead`. -/
def resourceNetboxDeviceRoleRead (api : DeviceRoleAPI) (d : DeviceRoleData) :
    Result DeviceRoleData DeviceRoleCall :=
  let id := (ParseInt d.id).1
  match api.read id with
  | .error err =>
    match err with
    | .readDefault errorcode =>
      if errorcode = 404 then
        ⟨{ d with id := "" }, [.read id], .nil⟩
      else
        ⟨d, [.read id], .apiErr err⟩
    | .other _ => ⟨d, [.read id], .panic⟩
  | .ok payload =>
    let d1 := { d with name := payload.Name }
    let d2 := { d1 with slug := payload.Slug }
    let d3 := { d2 with vm_role := some payload.VMRole }
    let d4 := { d3 with color_hex := some payload.Color }
    ⟨d4, [.read id], .nil⟩

/-- Handler `resourceNetboxDeviceRoleCreate`. -/
def resourceNetboxDeviceRoleCreate (api : DeviceRoleAPI) (d : DeviceRoleData) :
    Result DeviceRoleData DeviceRoleCall :=
  let name := getString d.name
  let (slugValue, slugOk) := getOkString d.slug
  let slug := if !slugOk then name else slugValue
  let color := getString d.color_hex
  let vmRole := getBool d.vm_role
  let data : DeviceRole :=
    { DeviceRole.zero with Name := some name, Slug := some slug, Color := color, VMRole := vmRole }
  match api.create data with
  | .error err => ⟨d, [.create data], .apiErr err⟩
  | .ok res =>
    let r := resourceNetboxDeviceRoleRead api { d with id := FormatInt res.ID }
    ⟨r.d, .create data :: r.trace, r.out⟩

/-- Handler `resourceNetboxDeviceRoleUpdate`. -/
def resourceNetboxDeviceRoleUpdate (api : DeviceRoleAPI) (d : DeviceRoleData) :
    Result DeviceRoleData DeviceRoleCall :=
  let id := (ParseInt d.id).1
  let data := DeviceRole.zero
  let name := getString d.name
  let color := getString d.color_hex
  let vmRole := getBool d.vm_role
  let (slugValue, slugOk) := getOkString d.slug
  let slug := if !slugOk then name else slugValue
  let data := { data with Slug := some slug }
  let data := { data with Name := some name }
  let data := { data with VMRole := vmRole }
  let data := { data with Color := color }
  match api.partialUpdate id data with
  | .error err => ⟨d, [.partialUpdate id data], .apiErr err⟩
  | .ok _ =>
    let r := resourceNetboxDeviceRoleRead api d
    ⟨r.d, .partialUpdate id data :: r.trace, r.out⟩

/-- Handler `resourceNetboxDeviceRoleDelete`. -/
def resourceNetboxDeviceRoleDelete (api : DeviceRoleAPI) (d : DeviceRoleData) :
    Result DeviceRoleData DeviceRoleCall :=
  let id := (ParseInt d.id).1
  match api.delete id with
  | .error err => ⟨d, [.delete id], .apiErr err⟩
  | .ok _ => ⟨d, [.delete id], .nil⟩

/-! ## Custom field -/

/-- The fields of `models.WritableCustomField` that the handlers fill; `Choices`
and `ContentTypes` are slices that start out `nil` and are only appended to. -/
structure WritableCustomField where
  Name : Option String
  Type_ : String
  Description : String
  Label : String
  Required : Bool
  ValidationRegex : String
  Weight : Option Int
  Choices : List String
  ContentTypes : List String
  ValidationMaximum : Option Int
  ValidationMinimum : Option Int
deriving DecidableEq, Repr

/-- The fields of `models.CustomField` that the read handler uses.  `Type_` is
the string reached by `*payload.Type.Value`, `none` when one of the two
pointers on the way is `nil`; `Choices` is a slice compared with `nil`. -/
structure CustomField where
  ID : Int
  Name : Option String
  Type_ : Option String
  ContentTypes : List String
  Choices : Option (List String)
  Weight : Option Int
  Default : Option String
  Description : String
  Label : String
  Required : Bool
  ValidationMaximum : Option Int
  ValidationMinimum : Option Int
  ValidationRegex : String
deriving DecidableEq, Repr

/-- The resource data of a custom field: the ID and the schema attributes of
`resourceCustomField`. -/
structure CustomFieldData where
  id : String
  name : Option String
  type : Option String
  content_types : List String
  weight : Option Int
  choices : List String
  default : Option String
  description : Option String
  label : Option String
  required : Option Bool
  validation_maximum : Option Int
  validation_minimum : Option Int
  validation_regex : Option String
deriving DecidableEq, Repr

/-- The requests of the custom field handlers. -/
inductive CustomFieldCall where
  | create (data : WritableCustomField)
  | read (id : Int)
  | update (id : Int) (data : WritableCustomField)
  | delete (id : Int)
deriving DecidableEq, Repr

/-- The responses of `api.Extras` to the custom field requests. -/
structure CustomFieldAPI where
  create : WritableCustomField → Except ApiError CustomField
  read : Int → Except ApiError CustomField
  update : Int → WritableCustomField → Except ApiError CustomField
  delete : Int → Except ApiError Unit

/-- The message of the error that rejects choices on a non-selection field. -/
def choicesError : String := "choices may be set only for custom selection fields"

/-- Handler `resourceNetboxCustomFieldRead`. -/
def resourceNetboxCustomFieldRead (api : CustomFieldAPI) (d : CustomFieldData) :
    Result CustomFieldData CustomFieldCall :=
  let id := (ParseInt d.id).1
  match api.read id with
  | .error err =>
    match err with
    | .other _ => ⟨d, [.read id], .apiErr err⟩
    | .readDefault errorcode =>
      if errorcode = 404 then
        ⟨{ d with id := "" }, [.read id], .nil⟩
      else
        ⟨d, [.read id], .apiErr err⟩
  | .ok payload =>
    let d := { d with name := payload.Name }
    match payload.Type_ with
    | none => ⟨d, [.read id], .panic⟩
    | some t =>
      let d := { d with type := some t }
      let d := { d with content_types := payload.ContentTypes }
      let d :=
        match payload.Choices with
        | some choices => { d with choices := choices }
        | none => d
      let d := { d with weight := payload.Weight }
      let d :=
        match payload.Default with
        | some v => { d with default := some v }
        | none => d
      let d := { d with description := some payload.Description }
      let d := { d with label := some payload.Label }
      let d := { d with required := some payload.Required }
      let d := { d with validation_maximum := payload.ValidationMaximum }
      let d := { d with validation_minimum := payload.ValidationMinimum }
      let d := { d with validation_regex := some payload.ValidationRegex }
      ⟨d, [.read id], .nil⟩

/-- Handler `resourceNetboxCustomFieldUpdate`. -/
def resourceNetboxCustomFieldUpdate (api : CustomFieldAPI) (d : CustomFieldData) :
    Result CustomFieldData CustomFieldCall :=
  let id := (ParseInt d.id).1
  let data : WritableCustomField :=
    { Name := strToPtr (getString d.name)
      Type_ := getString d.type
      Description := getString d.description
      Label := getString d.label
      Required := getBool d.required
      ValidationRegex := getString d.validation_regex
      Weight := int64ToPtr (getInt d.weight)
      Choices := []
      ContentTypes := []
      ValidationMaximum := none
      ValidationMinimum := none }
  let (choices, ok) := getOkSet d.choices
  if ok && (decide (data.Type_ ≠ "select") && decide (data.Type_ ≠ "multiselect")) then
    ⟨d, [], .errorf choicesError⟩
  else
    let data := if ok then { data with Choices := data.Choices ++ choices } else data
    let (ctypes, ok) := getOkSet d.content_types
    let data := if ok then { data with ContentTypes := data.ContentTypes ++ ctypes } else data
    let (vmax, ok) := getOkInt d.validation_maximum
    let data := if ok then { data with ValidationMaximum := int64ToPtr vmax } else data
    let (vmin, ok) := getOkInt d.validation_minimum
    let data := if ok then { data with ValidationMinimum := int64ToPtr vmin } else data
    match api.update id data with
    | .error err => ⟨d, [.update id data], .apiErr err⟩
    | .ok res =>
      let r := resourceNetboxCustomFieldRead api { d with id := FormatInt res.ID }
      ⟨r.d, .update id data :: r.trace, r.out⟩

/-- Handler `resourceNetboxCustomFieldCreate`. -/
def resourceNetboxCustomFieldCreate (api : CustomFieldAPI) (d : CustomFieldData) :
    Result CustomFieldData CustomFieldCall :=
  let data : WritableCustomField :=
    { Name := strToPtr (getString d.name)
      Type_ := getString d.type
      Description := getString d.description
      Label := getString d.label
      Required := getBool d.required
      ValidationRegex := getString d.validation_regex
      Weight := int64ToPtr (getInt d.weight)
      Choices := []
      ContentTypes := []
      ValidationMaximum := none
      ValidationMinimum := none }
  let (choices, ok) := getOkSet d.choices
  if ok && (decide (data.Type_ ≠ "select") && decide (data.Type_ ≠ "multiselect")) then
    ⟨d, [], .errorf choicesError⟩
  else
    let data := if ok then { data with Choices := data.Choices ++ choices } else data
    let (ctypes, ok) := getOkSet d.content_types
    let data := if ok then { data with ContentTypes := data.ContentTypes ++ ctypes } else data
    let (vmax, ok) := getOkInt d.validation_maximum
    let data := if ok then { data with ValidationMaximum := int64ToPtr vmax } else data
    let (vmin, ok) := getOkInt d.validation_minimum
    let data := if ok then { data with ValidationMinimum := int64ToPtr vmin } else data
    match api.create data with
    | .error err => ⟨d, [.create data], .apiErr err⟩
    | .ok res =>
      let r := resourceNetboxCustomFieldRead api { d with id := FormatInt res.ID }
      ⟨r.d, .create data :: r.trace, r.out⟩

/-- Handler `resourceNetboxCustomFieldDelete`. -/
def resourceNetboxCustomFieldDelete (api : CustomFieldAPI) (d : CustomFieldData) :
    Result CustomFieldData CustomFieldCall :=
  let id := (ParseInt d.id).1
  match api.delete id with
  | .error err => ⟨d, [.delete id], .apiErr err⟩
  | .ok _ => ⟨d, [.delete id], .nil⟩

/-! ## The write requests in closed form

The request bodies of the write handlers as single expressions; the theorems
`clusterGroupCreate_eq` to `customFieldUpdate_eq` below show that the handlers
issue exactly these. -/

/-- The request of `resourceNetboxClusterGroupCreate`. -/
def clusterGroupCreateData (d : ClusterGroupData) : ClusterGroup :=
  { ID := 0
    Name := some (getString d.attrs.name)
    Slug := some (if (!(getOkString d.attrs.slug).2) = true then getString d.attrs.name
      else (getOkString d.attrs.slug).1)
    Description := if (getOkString d.attrs.description).2 = true
      then (getOkString d.attrs.description).1 else "" }

/-- The request of `resourceNetboxClusterGroupUpdate`. -/
def clusterGroupUpdateData (d : ClusterGroupData) : ClusterGroup :=
  { ID := 0
    Name := some (getString d.attrs.name)
    Slug := some (if (!(getOkString d.attrs.slug).2) = true then getString d.attrs.name
      else (getOkString d.attrs.slug).1)
    Description := if d.hasChangeDescription = true then
      (if getString d.attrs.description = "" then " " else getString d.attrs.description)
      else "" }

/-- The request of the two device role write handlers. -/
def deviceRoleData (d : DeviceRoleData) : DeviceRole :=
  { ID := 0
    Name := some (getString d.name)
    Slug := some (if (!(getOkString d.slug).2) = true then getString d.name
      else (getOkString d.slug).1)
    Color := getString d.color_hex
    VMRole := getBool d.vm_role }

/-- The request body that the two custom field write handlers build when they
do not reject the resource data. -/
def customFieldData (d : CustomFieldData) : WritableCustomField :=
  { Name := some (getString d.name)
    Type_ := getString d.type
    Description := getString d.description
    Label := getString d.label
    Required := getBool d.required
    ValidationRegex := getString d.validation_regex
    Weight := some (getInt d.weight)
    Choices := d.choices
    ContentTypes := d.content_types
    ValidationMaximum :=
      if (getOkInt d.validation_maximum).2 = true then some (getOkInt d.validation_maximum).1
      else none
    ValidationMinimum :=
      if (getOkInt d.validation_minimum).2 = true then some (getOkInt d.validation_minimum).1
      else none }

/-- The guard under which the two custom field write handlers return the
`fmt.Errorf` error. -/
def customFieldRejects (d : CustomFieldData) : Bool :=
  (getOkSet d.choices).2 &&
    (decide (getString d.type ≠ "select") && decide (getString d.type ≠ "multiselect"))

/-- The request `c` with a create request turned into the update request for
the object `id`. -/
def CustomFieldCall.asUpdateOf (id : Int) (c : CustomFieldCall) : CustomFieldCall :=
  match c with
  | .create data => .update id data
  | other => other

/-! ## Decimal numerals

The vocabulary in which the statements about resource IDs describe an ID
string: its characters after an optional sign, the decimal digits among them
and their value. -/

/-- The largest `int64`. -/
def maxInt64 : Int := 2 ^ 63 - 1

/-- The smallest `int64`. -/
def minInt64 : Int := -(2 ^ 63)

/-- Whether `c` is one of the characters `0` to `9`. -/
def isDecimalDigit (c : Char) : Bool := decide (48 ≤ c.toNat ∧ c.toNat ≤ 57)

/-- The number written by the decimal digits `cs` behind the number `n`. -/
def decimalValue (n : Nat) (cs : List Char) : Nat :=
  cs.foldl (fun a c => a * 10 + (c.toNat - 48)) n

/-- The characters of a string after its leading `+` or `-`, when it has
one. -/
def afterSign (cs : List Char) : List Char :=
  match cs with
  | [] => []
  | c :: r => if c = '+' ∨ c = '-' then r else c :: r

/-! ## Sample inputs -/

/-- A cluster group API every call of which fails with `e`. -/
def clusterGroupApiFailing (e : ApiError) : ClusterGroupAPI :=
  ⟨fun _ => .error e, fun _ => .error e, fun _ _ => .error e, fun _ => .error e⟩

/-- A device role API every call of which fails with `e`. -/
def deviceRoleApiFailing (e : ApiError) : DeviceRoleAPI :=
  ⟨fun _ => .error e, fun _ => .error e, fun _ _ => .error e, fun _ => .error e⟩

/-- A custom field API every call of which fails with `e`. -/
def customFieldApiFailing (e : ApiError) : CustomFieldAPI :=
  ⟨fun _ => .error e, fun _ => .error e, fun _ _ => .error e, fun _ => .error e⟩

/-- A cluster group in state under ID 7, with no slug given and a description
that differs from the one of the prior state. -/
def sampleClusterGroup : ClusterGroupData :=
  ⟨"7", ⟨some "prod", none, some "production clusters"⟩, ⟨some "prod", some "prod", none⟩⟩

/-- A device role in state under ID 12. -/
def sampleDeviceRole : DeviceRoleData :=
  ⟨"12", some "core-switch", none, some true, some "ff0000"⟩

/-- A custom field in state under ID 3: an integer field without choices. -/
def sampleCustomField : CustomFieldData :=
  { id := "3", name := some "rack_units", type := some "integer"
    content_types := ["dcim.device"], weight := some 100, choices := []
    default := none, description := some "height", label := none, required := none
    validation_maximum := some 48, validation_minimum := none, validation_regex := none }

/-- A custom field API every call of which succeeds with the payload `p`. -/
def customFieldApiReading (p : CustomField) : CustomFieldAPI :=
  ⟨fun _ => .ok p, fun _ => .ok p, fun _ _ => .ok p, fun _ => .ok ()⟩

/-- A selection field in state under ID 3, with two choices and a default. -/
def staleCustomField : CustomFieldData :=
  { id := "3", name := some "colour", type := some "select"
    content_types := ["dcim.device"], weight := some 100, choices := ["red", "green"]
    default := some "red", description := none, label := none, required := none
    validation_maximum := none, validation_minimum := none, validation_regex := none }

/-- The remote custom field 3 after it was made a text field: the payload
carries neither choices nor a default. -/
def retypedPayload : CustomField :=
  { ID := 3, Name := some "colour", Type_ := some "text", ContentTypes := ["dcim.device"]
    Choices := none, Weight := some 100, Default := none, Description := "", Label := ""
    Required := false, ValidationMaximum := none, ValidationMinimum := none
    ValidationRegex := "" }

/-- A new cluster group with a name of 31 bytes and no slug. -/
def longNameClusterGroup : ClusterGroupData :=
  ⟨"", ⟨some "production-clusters-frankfurt-1", none, none⟩, ⟨none, none, none⟩⟩

/-- A new integer field whose two validation bounds are configured as 0. -/
def zeroBoundCustomField : CustomFieldData :=
  { id := "", name := some "offset", type := some "integer"
    content_types := ["dcim.device"], weight := some 100, choices := []
    default := none, description := none, label := none, required := none
    validation_maximum := some 0, validation_minimum := some 0, validation_regex := none }

/-- The sample cluster group under an ID that is no numeral: twenty digits
9 followed by the letter x. -/
def overflowIdClusterGroup : ClusterGroupData :=
  { sampleClusterGroup with id := "99999999999999999999x" }

/-- A text field with choices, under the ID "abc". -/
def rejectedCustomField : CustomFieldData :=
  { id := "abc", name := some "colour", type := some "text"
    content_types := ["dcim.device"], weight := some 100, choices := ["red", "green"]
    default := none, description := none, label := none, required := none
    validation_maximum := none, validation_minimum := none, validation_regex := none }

/-! ## The handlers in terms of the closed forms -/

/-- The slug computed by the four write handlers from `d.Get("name")` and
`d.GetOk("slug")`. -/
theorem slug_rule (name slug : Option String) :
    ((slug = none ∨ slug = some "") →
      (if (!(getOkString slug).2) = true then getString name else (getOkString slug).1)
        = getString name) ∧
    (∀ s, slug = some s → s ≠ "" →
      (if (!(getOkString slug).2) = true then getString name else (getOkString slug).1) = s) := by
  constructor
  · rintro (h | h) <;> simp [h, getOkString]
  · intro s h hs
    simp [h, hs, getOkString]

/-- The description that `resourceNetboxClusterGroupCreate` copies under the
guard of `GetOk` is the value that `Get` reads. -/
theorem getOk_description (v : Option String) :
    (if (getOkString v).2 = true then (getOkString v).1 else "") = getString v := by
  simp only [getOkString, getString]
  split_ifs with h
  · rfl
  · simp at h
    exact h.symm

/-- `resourceNetboxClusterGroupCreate` issues `clusterGroupCreateData` and, when the
call succeeds, stores the new ID and reads. -/
theorem clusterGroupCreate_eq (api : ClusterGroupAPI) (d : ClusterGroupData) :
    resourceNetboxClusterGroupCreate api d =
      match api.create (clusterGroupCreateData d) with
      | .error err => ⟨d, [.create (clusterGroupCreateData d)], .apiErr err⟩
      | .ok res =>
        let r := resourceNetboxClusterGroupRead api { d with id := FormatInt res.ID }
        ⟨r.d, .create (clusterGroupCreateData d) :: r.trace, r.out⟩ := by
  simp only [resourceNetboxClusterGroupCreate, clusterGroupCreateData, ClusterGroup.zero]
  split_ifs <;> rfl

/-- `resourceNetboxClusterGroupUpdate` issues `clusterGroupUpdateData` under the
parsed ID and, when the call succeeds, reads. -/
theorem clusterGroupUpdate_eq (api : ClusterGroupAPI) (d : ClusterGroupData) :
    resourceNetboxClusterGroupUpdate api d =
      match api.partialUpdate (ParseInt d.id).1 (clusterGroupUpdateData d) with
      | .error err => ⟨d, [.partialUpdate (ParseInt d.id).1 (clusterGroupUpdateData d)], .apiErr err⟩
      | .ok _ =>
        let r := resourceNetboxClusterGroupRead api d
        ⟨r.d, .partialUpdate (ParseInt d.id).1 (clusterGroupUpdateData d) :: r.trace, r.out⟩ := by
  simp only [resourceNetboxClusterGroupUpdate, clusterGroupUpdateData, ClusterGroup.zero]
  split_ifs <;> rfl

/-- `resourceNetboxDeviceRoleCreate` issues `deviceRoleData` and, when the call
succeeds, stores the new ID and reads. -/
theorem deviceRoleCreate_eq (api : DeviceRoleAPI) (d : DeviceRoleData) :
    resourceNetboxDeviceRoleCreate api d =
      match api.create (deviceRoleData d) with
      | .error err => ⟨d, [.create (deviceRoleData d)], .apiErr err⟩
      | .ok res =>
        let r := resourceNetboxDeviceRoleRead api { d with id := FormatInt res.ID }
        ⟨r.d, .create (deviceRoleData d) :: r.trace, r.out⟩ := by
  rfl

/-- `resourceNetboxDeviceRoleUpdate` issues `deviceRoleData` under the parsed ID
and, when the call succeeds, reads. -/
theorem deviceRoleUpdate_eq (api : DeviceRoleAPI) (d : DeviceRoleData) :
    resourceNetboxDeviceRoleUpdate api d =
      match api.partialUpdate (ParseInt d.id).1 (deviceRoleData d) with
      | .error err => ⟨d, [.partialUpdate (ParseInt d.id).1 (deviceRoleData d)], .apiErr err⟩
      | .ok _ =>
        let r := resourceNetboxDeviceRoleRead api d
        ⟨r.d, .partialUpdate (ParseInt d.id).1 (deviceRoleData d) :: r.trace, r.out⟩ := by
  rfl

/-- The first request of `resourceNetboxClusterGroupCreate`. -/
theorem clusterGroupCreate_trace (api : ClusterGroupAPI) (d : ClusterGroupData) :
    ∃ rest, (resourceNetboxClusterGroupCreate api d).trace
      = .create (clusterGroupCreateData d) :: rest := by
  rw [clusterGroupCreate_eq]
  split <;> exact ⟨_, rfl⟩

/-- The first request of `resourceNetboxClusterGroupUpdate`. -/
theorem clusterGroupUpdate_trace (api : ClusterGroupAPI) (d : ClusterGroupData) :
    ∃ rest, (resourceNetboxClusterGroupUpdate api d).trace
      = .partialUpdate (ParseInt d.id).1 (clusterGroupUpdateData d) :: rest := by
  rw [clusterGroupUpdate_eq]
  split <;> exact ⟨_, rfl⟩

/-- The first request of `resourceNetboxDeviceRoleCreate`. -/
theorem deviceRoleCreate_trace (api : DeviceRoleAPI) (d : DeviceRoleData) :
    ∃ rest, (resourceNetboxDeviceRoleCreate api d).trace
      = .create (deviceRoleData d) :: rest := by
  rw [deviceRoleCreate_eq]
  split <;> exact ⟨_, rfl⟩

/-- The first request of `resourceNetboxDeviceRoleUpdate`. -/
theorem deviceRoleUpdate_trace (api : DeviceRoleAPI) (d : DeviceRoleData) :
    ∃ rest, (resourceNetboxDeviceRoleUpdate api d).trace
      = .partialUpdate (ParseInt d.id).1 (deviceRoleData d) :: rest := by
  rw [deviceRoleUpdate_eq]
  split <;> exact ⟨_, rfl⟩

/-- `resourceNetboxCustomFieldCreate` either rejects the resource data before any
request, or issues `customFieldData` and, when the call succeeds, stores the new
ID and reads. -/
theorem customFieldCreate_eq (api : CustomFieldAPI) (d : CustomFieldData) :
    resourceNetboxCustomFieldCreate api d =
      if customFieldRejects d = true then ⟨d, [], .errorf choicesError⟩
      else
        match api.create (customFieldData d) with
        | .error err => ⟨d, [.create (customFieldData d)], .apiErr err⟩
        | .ok res =>
          let r := resourceNetboxCustomFieldRead api { d with id := FormatInt res.ID }
          ⟨r.d, .create (customFieldData d) :: r.trace, r.out⟩ := by
  by_cases h1 : d.choices = [] <;> by_cases h2 : d.content_types = [] <;>
  by_cases h3 : (getOkInt d.validation_maximum).2 = true <;>
  by_cases h4 : (getOkInt d.validation_minimum).2 = true <;>
  by_cases h5 : (decide (getString d.type ≠ "select") &&
    decide (getString d.type ≠ "multiselect")) = true <;>
  simp only [resourceNetboxCustomFieldCreate, customFieldData, customFieldRejects, getOkSet,
    strToPtr, int64ToPtr, List.nil_append, h1, h2, h3, h4, h5, ne_eq, not_true_eq_false,
    not_false_eq_true, decide_True, decide_False, Bool.false_and, Bool.true_and, Bool.and_true,
    Bool.and_false, if_true, if_false, Bool.false_eq_true]

/-- `resourceNetboxCustomFieldUpdate` either rejects the resource data before any
request, or issues `customFieldData` under the parsed ID and, when the call
succeeds, stores the returned ID and reads. -/
theorem customFieldUpdate_eq (api : CustomFieldAPI) (d : CustomFieldData) :
    resourceNetboxCustomFieldUpdate api d =
      if customFieldRejects d = true then ⟨d, [], .errorf choicesError⟩
      else
        match api.update (ParseInt d.id).1 (customFieldData d) with
        | .error err => ⟨d, [.update (ParseInt d.id).1 (customFieldData d)], .apiErr err⟩
        | .ok res =>
          let r := resourceNetboxCustomFieldRead api { d with id := FormatInt res.ID }
          ⟨r.d, .update (ParseInt d.id).1 (customFieldData d) :: r.trace, r.out⟩ := by
  by_cases h1 : d.choices = [] <;> by_cases h2 : d.content_types = [] <;>
  by_cases h3 : (getOkInt d.validation_maximum).2 = true <;>
  by_cases h4 : (getOkInt d.validation_minimum).2 = true <;>
  by_cases h5 : (decide (getString d.type ≠ "select") &&
    decide (getString d.type ≠ "multiselect")) = true <;>
  simp only [resourceNetboxCustomFieldUpdate, customFieldData, customFieldRejects, getOkSet,
    strToPtr, int64ToPtr, List.nil_append, h1, h2, h3, h4, h5, ne_eq, not_true_eq_false,
    not_false_eq_true, decide_True, decide_False, Bool.false_and, Bool.true_and, Bool.and_true,
    Bool.and_false, if_true, if_false, Bool.false_eq_true]

/-- The guard of the custom field write handlers, in terms of the attributes. -/
theorem customFieldRejects_iff (d : CustomFieldData) :
    customFieldRejects d = true ↔
      (d.choices ≠ [] ∧ getString d.type ≠ "select" ∧ getString d.type ≠ "multiselect") := by
  simp [customFieldRejects, getOkSet]

/-- No outcome of `resourceNetboxCustomFieldRead` is a `fmt.Errorf` error. -/
theorem customFieldRead_out_ne_errorf (api : CustomFieldAPI) (d : CustomFieldData)
    (msg : String) : (resourceNetboxCustomFieldRead api d).out ≠ .errorf msg := by
  unfold resourceNetboxCustomFieldRead
  simp only []
  split
  · split
    · simp
    · split <;> simp
  · split <;> simp

/-- The first request of `resourceNetboxCustomFieldCreate` on data it accepts. -/
theorem customFieldCreate_trace (api : CustomFieldAPI) (d : CustomFieldData)
    (h : customFieldRejects d = false) :
    ∃ rest, (resourceNetboxCustomFieldCreate api d).trace
      = .create (customFieldData d) :: rest := by
  rw [customFieldCreate_eq]
  simp only [h, Bool.false_eq_true, if_false]
  split <;> exact ⟨_, rfl⟩

/-- The first request of `resourceNetboxCustomFieldUpdate` on data it accepts. -/
theorem customFieldUpdate_trace (api : CustomFieldAPI) (d : CustomFieldData)
    (h : customFieldRejects d = false) :
    ∃ rest, (resourceNetboxCustomFieldUpdate api d).trace
      = .update (ParseInt d.id).1 (customFieldData d) :: rest := by
  rw [customFieldUpdate_eq]
  simp only [h, Bool.false_eq_true, if_false]
  split <;> exact ⟨_, rfl⟩

/-- `resourceNetboxCustomFieldCreate` ends with the choices error exactly under
its guard. -/
theorem customFieldCreate_out_iff (api : CustomFieldAPI) (d : CustomFieldData) :
    (resourceNetboxCustomFieldCreate api d).out = .errorf choicesError ↔
      customFieldRejects d = true := by
  rw [customFieldCreate_eq]
  by_cases h : customFieldRejects d = true
  · simp [h]
  · have h1 : customFieldRejects d = false := by simpa using h
    rw [h1]
    simp only [Bool.false_eq_true, if_false, iff_false]
    cases hc : api.create (customFieldData d) with
    | error e => simp
    | ok res => exact customFieldRead_out_ne_errorf _ _ _

/-- `resourceNetboxCustomFieldUpdate` ends with the choices error exactly under
its guard. -/
theorem customFieldUpdate_out_iff (api : CustomFieldAPI) (d : CustomFieldData) :
    (resourceNetboxCustomFieldUpdate api d).out = .errorf choicesError ↔
      customFieldRejects d = true := by
  rw [customFieldUpdate_eq]
  by_cases h : customFieldRejects d = true
  · simp [h]
  · have h1 : customFieldRejects d = false := by simpa using h
    rw [h1]
    simp only [Bool.false_eq_true, if_false, iff_false]
    cases hc : api.update (ParseInt d.id).1 (customFieldData d) with
    | error e => simp
    | ok res => exact customFieldRead_out_ne_errorf _ _ _

/-! ## Slug and name of the write requests -/


/-- C1: in `resourceNetboxClusterGroupCreate`, `resourceNetboxClusterGroupUpdate`,
`resourceNetboxDeviceRoleCreate` and `resourceNetboxDeviceRoleUpdate` the first
request issued is the write request; its name is the `name` attribute, its slug
is the `name` attribute when `slug` is absent or empty, and is the `slug`
attribute otherwise. -/
theorem slug_defaults_to_name (cgApi : ClusterGroupAPI) (cg : ClusterGroupData)
    (drApi : DeviceRoleAPI) (dr : DeviceRoleData) :
    (∃ data rest, (resourceNetboxClusterGroupCreate cgApi cg).trace = .create data :: rest ∧
      data.Name = some (getString cg.attrs.name) ∧
      ((cg.attrs.slug = none ∨ cg.attrs.slug = some "") →
        data.Slug = some (getString cg.attrs.name)) ∧
      (∀ s, cg.attrs.slug = some s → s ≠ "" → data.Slug = some s)) ∧
    (∃ id data rest,
      (resourceNetboxClusterGroupUpdate cgApi cg).trace = .partialUpdate id data :: rest ∧
      data.Name = some (getString cg.attrs.name) ∧
      ((cg.attrs.slug = none ∨ cg.attrs.slug = some "") →
        data.Slug = some (getString cg.attrs.name)) ∧
      (∀ s, cg.attrs.slug = some s → s ≠ "" → data.Slug = some s)) ∧
    (∃ data rest, (resourceNetboxDeviceRoleCreate drApi dr).trace = .create data :: rest ∧
      data.Name = some (getString dr.name) ∧
      ((dr.slug = none ∨ dr.slug = some "") → data.Slug = some (getString dr.name)) ∧
      (∀ s, dr.slug = some s → s ≠ "" → data.Slug = some s)) ∧
    (∃ id data rest,
      (resourceNetboxDeviceRoleUpdate drApi dr).trace = .partialUpdate id data :: rest ∧
      data.Name = some (getString dr.name) ∧
      ((dr.slug = none ∨ dr.slug = some "") → data.Slug = some (getString dr.name)) ∧
      (∀ s, dr.slug = some s → s ≠ "" → data.Slug = some s)) := by
  refine ⟨?_, ?_, ?_, ?_⟩
  · obtain ⟨rest, h⟩ := clusterGroupCreate_trace cgApi cg
    exact ⟨_, rest, h, rfl, fun hs => congrArg some ((slug_rule _ _).1 hs),
      fun s h1 h2 => congrArg some ((slug_rule _ _).2 s h1 h2)⟩
  · obtain ⟨rest, h⟩ := clusterGroupUpdate_trace cgApi cg
    exact ⟨_, _, rest, h, rfl, fun hs => congrArg some ((slug_rule _ _).1 hs),
      fun s h1 h2 => congrArg some ((slug_rule _ _).2 s h1 h2)⟩
  · obtain ⟨rest, h⟩ := deviceRoleCreate_trace drApi dr
    exact ⟨_, rest, h, rfl, fun hs => congrArg some ((slug_rule _ _).1 hs),
      fun s h1 h2 => congrArg some ((slug_rule _ _).2 s h1 h2)⟩
  · obtain ⟨rest, h⟩ := deviceRoleUpdate_trace drApi dr
    exact ⟨_, _, rest, h, rfl, fun hs => congrArg some ((slug_rule _ _).1 hs),
      fun s h1 h2 => congrArg some ((slug_rule _ _).2 s h1 h2)⟩

/-! ## Choices are accepted on selection fields only -/

/-- C2: `resourceNetboxCustomFieldCreate` and `resourceNetboxCustomFieldUpdate`
end with the error "choices may be set only for custom selection fields" exactly
when the `choices` set is non-empty and `type` is neither "select" nor
"multiselect"; when they end so, no request has been issued and the resource
data, its ID included, is as before. -/
theorem choices_only_for_selection_fields (api : CustomFieldAPI) (d : CustomFieldData) :
    ((resourceNetboxCustomFieldCreate api d).out = .errorf choicesError ↔
      (d.choices ≠ [] ∧ getString d.type ≠ "select" ∧ getString d.type ≠ "multiselect")) ∧
    ((resourceNetboxCustomFieldCreate api d).out = .errorf choicesError →
      (resourceNetboxCustomFieldCreate api d).trace = [] ∧
      (resourceNetboxCustomFieldCreate api d).d = d) ∧
    ((resourceNetboxCustomFieldUpdate api d).out = .errorf choicesError ↔
      (d.choices ≠ [] ∧ getString d.type ≠ "select" ∧ getString d.type ≠ "multiselect")) ∧
    ((resourceNetboxCustomFieldUpdate api d).out = .errorf choicesError →
      (resourceNetboxCustomFieldUpdate api d).trace = [] ∧
      (resourceNetboxCustomFieldUpdate api d).d = d) := by
  refine ⟨?_, ?_, ?_, ?_⟩
  · rw [customFieldCreate_out_iff, customFieldRejects_iff]
  · intro h
    rw [customFieldCreate_out_iff] at h
    rw [customFieldCreate_eq]
    simp [h]
  · rw [customFieldUpdate_out_iff, customFieldRejects_iff]
  · intro h
    rw [customFieldUpdate_out_iff] at h
    rw [customFieldUpdate_eq]
    simp [h]

/-! ## Errors of the read call -/

/-- C3: when the read call fails with the client's default response carrying
status 404, `resourceNetboxClusterGroupRead`, `resourceNetboxDeviceRoleRead` and
`resourceNetboxCustomFieldRead` return `nil` and leave the resource data as it
was except for the ID, which becomes the empty string. -/
theorem read_not_found_clears_id (cgApi : ClusterGroupAPI) (cg : ClusterGroupData)
    (drApi : DeviceRoleAPI) (dr : DeviceRoleData)
    (cfApi : CustomFieldAPI) (cf : CustomFieldData) :
    (cgApi.read (ParseInt cg.id).1 = .error (.readDefault 404) →
      (resourceNetboxClusterGroupRead cgApi cg).d = { cg with id := "" } ∧
      (resourceNetboxClusterGroupRead cgApi cg).out = .nil) ∧
    (drApi.read (ParseInt dr.id).1 = .error (.readDefault 404) →
      (resourceNetboxDeviceRoleRead drApi dr).d = { dr with id := "" } ∧
      (resourceNetboxDeviceRoleRead drApi dr).out = .nil) ∧
    (cfApi.read (ParseInt cf.id).1 = .error (.readDefault 404) →
      (resourceNetboxCustomFieldRead cfApi cf).d = { cf with id := "" } ∧
      (resourceNetboxCustomFieldRead cfApi cf).out = .nil) := by
  refine ⟨?_, ?_, ?_⟩
  · intro h
    simp [resourceNetboxClusterGroupRead, h]
  · intro h
    simp [resourceNetboxDeviceRoleRead, h]
  · intro h
    simp [resourceNetboxCustomFieldRead, h]

/-- C3 at the sample resources, with APIs that answer 404. -/
theorem read_not_found_clears_id_witness :
    ((resourceNetboxClusterGroupRead (clusterGroupApiFailing (.readDefault 404))
        sampleClusterGroup).d = { sampleClusterGroup with id := "" } ∧
      (resourceNetboxClusterGroupRead (clusterGroupApiFailing (.readDefault 404))
        sampleClusterGroup).out = .nil) ∧
    ((resourceNetboxDeviceRoleRead (deviceRoleApiFailing (.readDefault 404))
        sampleDeviceRole).d = { sampleDeviceRole with id := "" } ∧
      (resourceNetboxDeviceRoleRead (deviceRoleApiFailing (.readDefault 404))
        sampleDeviceRole).out = .nil) ∧
    ((resourceNetboxCustomFieldRead (customFieldApiFailing (.readDefault 404))
        sampleCustomField).d = { sampleCustomField with id := "" } ∧
      (resourceNetboxCustomFieldRead (customFieldApiFailing (.readDefault 404))
        sampleCustomField).out = .nil) :=
  have h := read_not_found_clears_id (clusterGroupApiFailing (.readDefault 404))
    sampleClusterGroup (deviceRoleApiFailing (.readDefault 404)) sampleDeviceRole
    (customFieldApiFailing (.readDefault 404)) sampleCustomField
  ⟨h.1 rfl, h.2.1 rfl, h.2.2 rfl⟩

/-- C4: a read call that fails with an error of another type than the client's
`...ReadDefault` (here a refused connection) makes
`resourceNetboxClusterGroupRead` and `resourceNetboxDeviceRoleRead` panic in the
unchecked type assertion, where `resourceNetboxCustomFieldRead`, which checks
the assertion, returns the error. -/
theorem read_other_error_panics :
    (resourceNetboxClusterGroupRead (clusterGroupApiFailing (.other "connection refused"))
      sampleClusterGroup).out = .panic ∧
    (resourceNetboxDeviceRoleRead (deviceRoleApiFailing (.other "connection refused"))
      sampleDeviceRole).out = .panic ∧
    (resourceNetboxCustomFieldRead (customFieldApiFailing (.other "connection refused"))
      sampleCustomField).out = .apiErr (.other "connection refused") := by
  refine ⟨rfl, rfl, rfl⟩

/-- C5: `resourceNetboxCustomFieldRead` returns every error of the read call
that is not the default response with status 404 (an error of another type, or
the default response with another status), and leaves the resource data as it
was. -/
theorem customFieldRead_returns_error (api : CustomFieldAPI) (d : CustomFieldData)
    (e : ApiError) (h : api.read (ParseInt d.id).1 = .error e) (hne : e ≠ .readDefault 404) :
    (resourceNetboxCustomFieldRead api d).out = .apiErr e ∧
    (resourceNetboxCustomFieldRead api d).d = d := by
  cases e with
  | other msg => simp [resourceNetboxCustomFieldRead, h]
  | readDefault code =>
    have hc : code ≠ 404 := fun hc => hne (by rw [hc])
    simp [resourceNetboxCustomFieldRead, h, hc]

/-- C5 at the sample custom field, for a status 500 answer. -/
theorem customFieldRead_returns_error_witness :
    (resourceNetboxCustomFieldRead (customFieldApiFailing (.readDefault 500))
      sampleCustomField).out = .apiErr (.readDefault 500) ∧
    (resourceNetboxCustomFieldRead (customFieldApiFailing (.readDefault 500))
      sampleCustomField).d = sampleCustomField :=
  customFieldRead_returns_error (customFieldApiFailing (.readDefault 500)) sampleCustomField
    (.readDefault 500) rfl (by decide)

/-! ## Errors of the create call -/

/-- C6: when the create request that `resourceNetboxClusterGroupCreate`,
`resourceNetboxDeviceRoleCreate` or `resourceNetboxCustomFieldCreate` issues is
answered with an error, the handler returns that error, has issued that one
create request and nothing else, and leaves the resource data, its ID included,
as it was. -/
theorem create_error_is_returned (cgApi : ClusterGroupAPI) (cg : ClusterGroupData)
    (drApi : DeviceRoleAPI) (dr : DeviceRoleData)
    (cfApi : CustomFieldAPI) (cf : CustomFieldData) :
    (∀ data e, (resourceNetboxClusterGroupCreate cgApi cg).trace.head? = some (.create data) →
      cgApi.create data = .error e →
      resourceNetboxClusterGroupCreate cgApi cg = ⟨cg, [.create data], .apiErr e⟩) ∧
    (∀ data e, (resourceNetboxDeviceRoleCreate drApi dr).trace.head? = some (.create data) →
      drApi.create data = .error e →
      resourceNetboxDeviceRoleCreate drApi dr = ⟨dr, [.create data], .apiErr e⟩) ∧
    (∀ data e, (resourceNetboxCustomFieldCreate cfApi cf).trace.head? = some (.create data) →
      cfApi.create data = .error e →
      resourceNetboxCustomFieldCreate cfApi cf = ⟨cf, [.create data], .apiErr e⟩) := by
  refine ⟨?_, ?_, ?_⟩
  · intro data e h1 h2
    obtain ⟨rest, ht⟩ := clusterGroupCreate_trace cgApi cg
    rw [ht] at h1
    simp only [List.head?_cons, Option.some.injEq, ClusterGroupCall.create.injEq] at h1
    subst h1
    rw [clusterGroupCreate_eq, h2]
  · intro data e h1 h2
    obtain ⟨rest, ht⟩ := deviceRoleCreate_trace drApi dr
    rw [ht] at h1
    simp only [List.head?_cons, Option.some.injEq, DeviceRoleCall.create.injEq] at h1
    subst h1
    rw [deviceRoleCreate_eq, h2]
  · intro data e h1 h2
    cases hr : customFieldRejects cf with
    | true =>
      rw [customFieldCreate_eq, hr] at h1
      simp at h1
    | false =>
      obtain ⟨rest, ht⟩ := customFieldCreate_trace cfApi cf hr
      rw [ht] at h1
      simp only [List.head?_cons, Option.some.injEq, CustomFieldCall.create.injEq] at h1
      subst h1
      rw [customFieldCreate_eq, hr, h2]
      simp

/-- C6 at the sample resources, with APIs that refuse the create request. -/
theorem create_error_is_returned_witness :
    resourceNetboxClusterGroupCreate (clusterGroupApiFailing (.other "400 Bad Request"))
        sampleClusterGroup
      = ⟨sampleClusterGroup,
          [.create ⟨0, some "prod", some "prod", "production clusters"⟩],
          .apiErr (.other "400 Bad Request")⟩ ∧
    resourceNetboxDeviceRoleCreate (deviceRoleApiFailing (.other "400 Bad Request"))
        sampleDeviceRole
      = ⟨sampleDeviceRole,
          [.create ⟨0, some "core-switch", some "core-switch", "ff0000", true⟩],
          .apiErr (.other "400 Bad Request")⟩ ∧
    resourceNetboxCustomFieldCreate (customFieldApiFailing (.other "400 Bad Request"))
        sampleCustomField
      = ⟨sampleCustomField, [.create (customFieldData sampleCustomField)],
          .apiErr (.other "400 Bad Request")⟩ :=
  have h := create_error_is_returned (clusterGroupApiFailing (.other "400 Bad Request"))
    sampleClusterGroup (deviceRoleApiFailing (.other "400 Bad Request")) sampleDeviceRole
    (customFieldApiFailing (.other "400 Bad Request")) sampleCustomField
  ⟨h.1 _ _ rfl rfl, h.2.1 _ _ rfl rfl, h.2.2 _ _ rfl rfl⟩

/-! ## Description of the cluster group requests -/

/-- C7: the description in the partial-update request of
`resourceNetboxClusterGroupUpdate` is `" "` when `description` has changed and is
now empty, the new description when it has changed and is not empty, and `""`
when it has not changed; the description in the create request of
`resourceNetboxClusterGroupCreate` is the `description` attribute, `""` when
there is none. -/
theorem clusterGroup_request_description (api : ClusterGroupAPI) (d : ClusterGroupData) :
    (∃ id data rest,
      (resourceNetboxClusterGroupUpdate api d).trace = .partialUpdate id data :: rest ∧
      data.Description =
        if d.hasChangeDescription = true then
          (if getString d.attrs.description = "" then " " else getString d.attrs.description)
        else "") ∧
    (∃ data rest,
      (resourceNetboxClusterGroupCreate api d).trace = .create data :: rest ∧
      data.Description = getString d.attrs.description) := by
  constructor
  · obtain ⟨rest, h⟩ := clusterGroupUpdate_trace api d
    exact ⟨_, _, rest, h, rfl⟩
  · obtain ⟨rest, h⟩ := clusterGroupCreate_trace api d
    exact ⟨_, rest, h, getOk_description _⟩

/-! ## State of a custom field after a read -/

/-- C8, as stated, fails: the stored custom field has choices and a default,
the payload of a successful read has neither, and after
`resourceNetboxCustomFieldRead` the state still holds the old choices and the
old default. -/
theorem customFieldRead_keeps_choices_and_default :
    (customFieldApiReading retypedPayload).read (ParseInt staleCustomField.id).1
      = .ok retypedPayload ∧
    (resourceNetboxCustomFieldRead (customFieldApiReading retypedPayload)
      staleCustomField).out = .nil ∧
    retypedPayload.Choices = none ∧
    (resourceNetboxCustomFieldRead (customFieldApiReading retypedPayload)
      staleCustomField).d.choices = ["red", "green"] ∧
    (resourceNetboxCustomFieldRead (customFieldApiReading retypedPayload)
      staleCustomField).d.choices ≠ retypedPayload.Choices.getD [] ∧
    retypedPayload.Default = none ∧
    (resourceNetboxCustomFieldRead (customFieldApiReading retypedPayload)
      staleCustomField).d.default = some "red" ∧
    (resourceNetboxCustomFieldRead (customFieldApiReading retypedPayload)
      staleCustomField).d.default ≠ retypedPayload.Default := by
  refine ⟨rfl, rfl, rfl, rfl, by decide, rfl, rfl, by decide⟩

/-- C8, amended: after a read whose call succeeds with a payload that carries a
type value, `resourceNetboxCustomFieldRead` returns `nil`, keeps the ID, and
every attribute other than `choices` and `default` equals the field of the
payload; `choices` equals the payload's choices when these are not `nil` and
`default` the payload's default when it is not `nil`, and each is as before the
read otherwise. -/
theorem customFieldRead_state_after_success (api : CustomFieldAPI) (d : CustomFieldData)
    (p : CustomField) (t : String)
    (h : api.read (ParseInt d.id).1 = .ok p) (ht : p.Type_ = some t) :
    (resourceNetboxCustomFieldRead api d).out = .nil ∧
    (resourceNetboxCustomFieldRead api d).d.id = d.id ∧
    (resourceNetboxCustomFieldRead api d).d.name = p.Name ∧
    (resourceNetboxCustomFieldRead api d).d.type = some t ∧
    (resourceNetboxCustomFieldRead api d).d.content_types = p.ContentTypes ∧
    (resourceNetboxCustomFieldRead api d).d.weight = p.Weight ∧
    (resourceNetboxCustomFieldRead api d).d.description = some p.Description ∧
    (resourceNetboxCustomFieldRead api d).d.label = some p.Label ∧
    (resourceNetboxCustomFieldRead api d).d.required = some p.Required ∧
    (resourceNetboxCustomFieldRead api d).d.validation_maximum = p.ValidationMaximum ∧
    (resourceNetboxCustomFieldRead api d).d.validation_minimum = p.ValidationMinimum ∧
    (resourceNetboxCustomFieldRead api d).d.validation_regex = some p.ValidationRegex ∧
    (resourceNetboxCustomFieldRead api d).d.choices = p.Choices.getD d.choices ∧
    (resourceNetboxCustomFieldRead api d).d.default =
      (match p.Default with
       | some v => some v
       | none => d.default) := by
  simp only [resourceNetboxCustomFieldRead, h, ht]
  cases p.Choices <;> cases p.Default <;> simp

/-- C8, amended, at the stored selection field and the payload without choices
and default. -/
theorem customFieldRead_state_after_success_witness :
    (customFieldApiReading retypedPayload).read (ParseInt staleCustomField.id).1
      = .ok retypedPayload ∧
    retypedPayload.Type_ = some "text" ∧
    (resourceNetboxCustomFieldRead (customFieldApiReading retypedPayload)
      staleCustomField).out = .nil ∧
    (resourceNetboxCustomFieldRead (customFieldApiReading retypedPayload)
      staleCustomField).d.type = some "text" ∧
    (resourceNetboxCustomFieldRead (customFieldApiReading retypedPayload)
      staleCustomField).d.description = some "" ∧
    (resourceNetboxCustomFieldRead (customFieldApiReading retypedPayload)
      staleCustomField).d.choices = ["red", "green"] := by
  obtain ⟨h0, _, _, h3, _, _, h6, _, _, _, _, _, h12, _⟩ :=
    customFieldRead_state_after_success (customFieldApiReading retypedPayload)
      staleCustomField retypedPayload "text" rfl rfl
  exact ⟨rfl, rfl, h0, h3, h6, h12⟩

/-! ## Length of the cluster group slug -/

/-- The slug computed from a validated `slug` attribute has at most 30 bytes
when the slug is given and not empty, or when the name has at most 30 bytes. -/
theorem slug_length_bound (name slug : Option String)
    (hv : clusterGroupSlugValid slug = true)
    (hn : (∃ s, slug = some s ∧ s ≠ "") ∨ goLen (getString name) ≤ 30) :
    goLen (if (!(getOkString slug).2) = true then getString name else (getOkString slug).1)
      ≤ 30 := by
  cases slug with
  | none =>
    rcases hn with ⟨s, h, _⟩ | hn
    · cases h
    · simpa [getOkString] using hn
  | some s =>
    by_cases hs : s = ""
    · rcases hn with ⟨t, h, ht⟩ | hn
      · cases h
        exact absurd hs ht
      · simpa [getOkString, hs] using hn
    · have h30 : goLen s ≤ 30 := by
        simpa [clusterGroupSlugValid] using hv
      simpa [getOkString, hs] using h30

/-- C9, as stated, fails: a cluster group without a slug and with a name of 31
bytes passes the validation of the schema, and the create and the
partial-update request carry the name as a slug of 31 bytes. -/
theorem clusterGroup_slug_exceeds_30 :
    clusterGroupSlugValid longNameClusterGroup.attrs.slug = true ∧
    (resourceNetboxClusterGroupCreate (clusterGroupApiFailing (.other "connection refused"))
      longNameClusterGroup).trace
      = [.create ⟨0, some "production-clusters-frankfurt-1",
          some "production-clusters-frankfurt-1", ""⟩] ∧
    (resourceNetboxClusterGroupUpdate (clusterGroupApiFailing (.other "connection refused"))
      longNameClusterGroup).trace
      = [.partialUpdate 0 ⟨0, some "production-clusters-frankfurt-1",
          some "production-clusters-frankfurt-1", ""⟩] ∧
    goLen "production-clusters-frankfurt-1" = 31 ∧
    ¬ goLen "production-clusters-frankfurt-1" ≤ 30 := by
  refine ⟨rfl, rfl, rfl, by decide, by decide⟩

/-- C9, amended: for a cluster group whose slug passes the validation of the
schema and either is given and not empty, or is unset next to a name of at most
30 bytes, the slug in the create request and in the partial-update request has
at most 30 bytes. -/
theorem clusterGroup_request_slug_length (api : ClusterGroupAPI) (d : ClusterGroupData)
    (hv : clusterGroupSlugValid d.attrs.slug = true)
    (hn : (∃ s, d.attrs.slug = some s ∧ s ≠ "") ∨ goLen (getString d.attrs.name) ≤ 30) :
    (∃ data rest s, (resourceNetboxClusterGroupCreate api d).trace = .create data :: rest ∧
      data.Slug = some s ∧ goLen s ≤ 30) ∧
    (∃ id data rest s,
      (resourceNetboxClusterGroupUpdate api d).trace = .partialUpdate id data :: rest ∧
      data.Slug = some s ∧ goLen s ≤ 30) := by
  constructor
  · obtain ⟨rest, h⟩ := clusterGroupCreate_trace api d
    exact ⟨_, rest, _, h, rfl, slug_length_bound _ _ hv hn⟩
  · obtain ⟨rest, h⟩ := clusterGroupUpdate_trace api d
    exact ⟨_, _, rest, _, h, rfl, slug_length_bound _ _ hv hn⟩

/-- C9, amended, at the sample cluster group: no slug, a name of four bytes. -/
theorem clusterGroup_request_slug_length_witness :
    clusterGroupSlugValid sampleClusterGroup.attrs.slug = true ∧
    goLen (getString sampleClusterGroup.attrs.name) ≤ 30 ∧
    (∃ data rest s,
      (resourceNetboxClusterGroupCreate (clusterGroupApiFailing (.readDefault 500))
        sampleClusterGroup).trace = .create data :: rest ∧
      data.Slug = some s ∧ goLen s ≤ 30) :=
  ⟨rfl, by decide,
    (clusterGroup_request_slug_length (clusterGroupApiFailing (.readDefault 500))
      sampleClusterGroup rfl (Or.inr (by decide))).1⟩

/-! ## Validation bounds of the custom field requests -/

/-- The bound that the custom field write handlers put into the request under
the guard of `GetOk`. -/
theorem bound_rule (v : Option Int) :
    (∀ x, v = some x → x ≠ 0 →
      (if (getOkInt v).2 = true then some (getOkInt v).1 else none) = some x) ∧
    ((v = none ∨ v = some 0) →
      (if (getOkInt v).2 = true then some (getOkInt v).1 else none) = none) := by
  constructor
  · intro x h hx
    simp [h, hx, getOkInt]
  · rintro (h | h) <;> simp [h, getOkInt]

/-- C10, as stated, fails: with both validation bounds configured as 0, the
create request and the update request carry no bound at all. -/
theorem customField_zero_bound_is_dropped :
    zeroBoundCustomField.validation_maximum = some 0 ∧
    zeroBoundCustomField.validation_minimum = some 0 ∧
    (resourceNetboxCustomFieldCreate (customFieldApiFailing (.other "connection refused"))
      zeroBoundCustomField).trace
      = [.create ⟨some "offset", "integer", "", "", false, "", some 100, [], ["dcim.device"],
          none, none⟩] ∧
    (resourceNetboxCustomFieldUpdate (customFieldApiFailing (.other "connection refused"))
      zeroBoundCustomField).trace
      = [.update 0 ⟨some "offset", "integer", "", "", false, "", some 100, [],
          ["dcim.device"], none, none⟩] := by
  refine ⟨rfl, rfl, rfl, rfl⟩

/-- C10, amended: when the custom field write handlers do not reject the
resource data, the request carries `ValidationMaximum` (respectively
`ValidationMinimum`) equal to `v` when the attribute is configured to an
integer `v` other than 0, and carries none when the attribute is not configured
or is configured to 0. -/
theorem customField_request_validation_bounds (api : CustomFieldAPI) (d : CustomFieldData)
    (h : d.choices = [] ∨ getString d.type = "select" ∨ getString d.type = "multiselect") :
    (∃ data rest, (resourceNetboxCustomFieldCreate api d).trace = .create data :: rest ∧
      (∀ v, d.validation_maximum = some v → v ≠ 0 → data.ValidationMaximum = some v) ∧
      ((d.validation_maximum = none ∨ d.validation_maximum = some 0) →
        data.ValidationMaximum = none) ∧
      (∀ v, d.validation_minimum = some v → v ≠ 0 → data.ValidationMinimum = some v) ∧
      ((d.validation_minimum = none ∨ d.validation_minimum = some 0) →
        data.ValidationMinimum = none)) ∧
    (∃ id data rest, (resourceNetboxCustomFieldUpdate api d).trace = .update id data :: rest ∧
      (∀ v, d.validation_maximum = some v → v ≠ 0 → data.ValidationMaximum = some v) ∧
      ((d.validation_maximum = none ∨ d.validation_maximum = some 0) →
        data.ValidationMaximum = none) ∧
      (∀ v, d.validation_minimum = some v → v ≠ 0 → data.ValidationMinimum = some v) ∧
      ((d.validation_minimum = none ∨ d.validation_minimum = some 0) →
        data.ValidationMinimum = none)) := by
  have hr : customFieldRejects d = false := by
    rw [Bool.eq_false_iff, Ne, customFieldRejects_iff]
    rintro ⟨h1, h2, h3⟩
    rcases h with h | h | h
    · exact h1 h
    · exact h2 h
    · exact h3 h
  constructor
  · obtain ⟨rest, ht⟩ := customFieldCreate_trace api d hr
    exact ⟨_, rest, ht, (bound_rule _).1, (bound_rule _).2, (bound_rule _).1, (bound_rule _).2⟩
  · obtain ⟨rest, ht⟩ := customFieldUpdate_trace api d hr
    exact ⟨_, _, rest, ht, (bound_rule _).1, (bound_rule _).2, (bound_rule _).1,
      (bound_rule _).2⟩

/-- C10, amended, at the sample custom field: a maximum of 48 and no minimum. -/
theorem customField_request_validation_bounds_witness :
    sampleCustomField.choices = [] ∧
    (∃ data rest,
      (resourceNetboxCustomFieldCreate (customFieldApiFailing (.readDefault 500))
        sampleCustomField).trace = .create data :: rest ∧
      data.ValidationMaximum = some 48 ∧ data.ValidationMinimum = none) := by
  obtain ⟨⟨data, rest, ht, h1, _, _, h4⟩, _⟩ :=
    customField_request_validation_bounds (customFieldApiFailing (.readDefault 500))
      sampleCustomField (Or.inl rfl)
  exact ⟨rfl, data, rest, ht, h1 48 rfl (by decide), h4 (Or.inl rfl)⟩

/-! ## `strconv.ParseInt` and `strconv.FormatInt` -/

/-- Reading further digits does not make the number smaller. -/
theorem decimalValue_ge (cs : List Char) (n : Nat) : n ≤ decimalValue n cs := by
  induction cs generalizing n with
  | nil => exact Nat.le_refl _
  | cons c cs ih =>
    have h := ih (n * 10 + (c.toNat - 48))
    simp only [decimalValue, List.foldl_cons] at h ⊢
    omega

/-- The value of `maxUint64`. -/
theorem maxUint64_eq : maxUint64 = 18446744073709551615 := by decide

/-- The digit loop of `strconv.ParseUint`, started on an accumulator within
`uint64`: a range error as soon as the leading digits exceed `maxUint64`,
otherwise a syntax error when a character is no digit, otherwise the number
written. -/
theorem parseUintLoop_spec (cs : List Char) (n : Nat) (hn : n ≤ maxUint64) :
    parseUintLoop cs n =
      if maxUint64 < decimalValue n (cs.takeWhile isDecimalDigit) then
        (maxUint64, some .ErrRange)
      else if cs.all isDecimalDigit = true then (decimalValue n cs, none)
      else (0, some .ErrSyntax) := by
  induction cs generalizing n with
  | nil =>
    have : ¬ maxUint64 < n := by omega
    simp [parseUintLoop, decimalValue, this]
  | cons c cs ih =>
    by_cases hc : 48 ≤ c.toNat ∧ c.toNat ≤ 57
    · have hd : isDecimalDigit c = true := by simp [isDecimalDigit, hc]
      have hge := decimalValue_ge (cs.takeWhile isDecimalDigit) (n * 10 + (c.toNat - 48))
      have hfold : ∀ l, decimalValue n (c :: l) = decimalValue (n * 10 + (c.toNat - 48)) l :=
        fun l => rfl
      simp only [parseUintLoop, hc, and_self, if_true, List.takeWhile_cons, hd, List.all_cons,
        Bool.true_and, hfold]
      rw [maxUint64_eq] at hn ⊢
      norm_num only
      by_cases h1 : 1844674407370955162 ≤ n
      · rw [if_pos h1, if_pos (by omega)]
      · rw [if_neg h1]
        by_cases h2 : n * 10 + (c.toNat - 48) ≤ 18446744073709551615
        · have hm : (n * 10 + (c.toNat - 48)) % 18446744073709551616
              = n * 10 + (c.toNat - 48) := Nat.mod_eq_of_lt (by omega)
          have hm2 : n * 10 % 18446744073709551616 = n * 10 := Nat.mod_eq_of_lt (by omega)
          rw [if_neg (by omega), hm2, hm, ih _ (by rw [maxUint64_eq]; exact h2), maxUint64_eq]
        · rw [if_pos (by omega), if_pos (by omega)]
    · have hd : isDecimalDigit c = false := by simp [isDecimalDigit, hc]
      have : ¬ maxUint64 < n := by omega
      simp [parseUintLoop, hc, hd, decimalValue, this]


/-- `strconv.ParseUint(s, 10, 64)` in terms of the leading digits of `s`. -/
theorem ParseUint_spec (cs : List Char) :
    ParseUint cs =
      if maxUint64 < decimalValue 0 (cs.takeWhile isDecimalDigit) then
        (maxUint64, some .ErrRange)
      else if cs = [] ∨ cs.all isDecimalDigit = false then (0, some .ErrSyntax)
      else (decimalValue 0 cs, none) := by
  cases cs with
  | nil => simp [ParseUint, decimalValue]
  | cons c cs =>
    have h0 : ParseUint (c :: cs) = parseUintLoop (c :: cs) 0 := rfl
    rw [h0, parseUintLoop_spec _ _ (Nat.zero_le _)]
    cases hall : (c :: cs).all isDecimalDigit <;> simp

/-- The conversion to `int64` keeps a `uint64` below `2 ^ 63`. -/
theorem int64OfUint64_small (u : Nat) (h : u < 2 ^ 63) : int64OfUint64 u = (u : Int) := by
  have h1 : u % 2 ^ 64 = u := Nat.mod_eq_of_lt (by omega)
  unfold int64OfUint64
  rw [h1, if_pos h]

/-- The part of `strconv.ParseInt` after the sign has been picked off: `neg`
tells whether the sign was `-`, `rest` is what follows the sign. -/
theorem ParseInt_tail (neg : Bool) (rest : List Char) :
    (if (ParseUint rest).2 = some .ErrSyntax then ((0 : Int), (ParseUint rest).2)
     else if (!neg && decide ((ParseUint rest).1 ≥ 2 ^ 63)) = true then
       (((2 ^ 63 - 1 : Nat) : Int), some .ErrRange)
     else if (neg && decide ((ParseUint rest).1 > 2 ^ 63)) = true then
       (-((2 ^ 63 : Nat) : Int), some .ErrRange)
     else
       (if neg = true then negInt64 (int64OfUint64 (ParseUint rest).1)
        else int64OfUint64 (ParseUint rest).1, none)) =
      if maxUint64 < decimalValue 0 (rest.takeWhile isDecimalDigit) then
        (if neg = true then minInt64 else maxInt64, some .ErrRange)
      else if rest = [] ∨ rest.all isDecimalDigit = false then (0, some .ErrSyntax)
      else if neg = true then
        (if 2 ^ 63 < decimalValue 0 rest then (minInt64, some .ErrRange)
         else (-(decimalValue 0 rest : Int), none))
      else
        (if 2 ^ 63 ≤ decimalValue 0 rest then (maxInt64, some .ErrRange)
         else ((decimalValue 0 rest : Int), none)) := by
  by_cases hv : maxUint64 < decimalValue 0 (rest.takeWhile isDecimalDigit)
  · have hp : ParseUint rest = (maxUint64, some .ErrRange) := by
      rw [ParseUint_spec, if_pos hv]
    rw [hp, if_pos hv]
    cases neg <;> simp [maxUint64, minInt64, maxInt64]
  · by_cases hsyn : rest = [] ∨ rest.all isDecimalDigit = false
    · have hp : ParseUint rest = (0, some .ErrSyntax) := by
        rw [ParseUint_spec, if_neg hv, if_pos hsyn]
      rw [hp, if_neg hv, if_pos hsyn]
      simp
    · have hp : ParseUint rest = (decimalValue 0 rest, none) := by
        rw [ParseUint_spec, if_neg hv, if_neg hsyn]
      rw [hp, if_neg hv, if_neg hsyn]
      cases neg
      · by_cases hr : 9223372036854775808 ≤ decimalValue 0 rest
        · simp [hr, maxInt64]
        · have := int64OfUint64_small _ (by omega : decimalValue 0 rest < 2 ^ 63)
          simp [hr, this]
      · by_cases hr : 9223372036854775808 < decimalValue 0 rest
        · simp [hr, minInt64]
        · by_cases he : decimalValue 0 rest = 9223372036854775808
          · have h1 : int64OfUint64 (decimalValue 0 rest) = -9223372036854775808 := by
              rw [he]; decide
            simp only [he]
            decide
          · have h1 := int64OfUint64_small _ (by omega : decimalValue 0 rest < 2 ^ 63)
            have h2 : ((decimalValue 0 rest : Nat) : Int) ≠ -9223372036854775808 := by omega
            simp [hr, h1, negInt64, h2]

/-- `strconv.ParseInt(s, 10, 64)` in terms of the sign of `s` and the digits
after it. -/
theorem ParseInt_spec (s : String) :
    ParseInt s =
      if maxUint64 < decimalValue 0 ((afterSign s.data).takeWhile isDecimalDigit) then
        (if s.data.head? = some '-' then minInt64 else maxInt64, some .ErrRange)
      else if afterSign s.data = [] ∨ (afterSign s.data).all isDecimalDigit = false then
        (0, some .ErrSyntax)
      else if s.data.head? = some '-' then
        (if 2 ^ 63 < decimalValue 0 (afterSign s.data) then (minInt64, some .ErrRange)
         else (-(decimalValue 0 (afterSign s.data) : Int), none))
      else
        (if 2 ^ 63 ≤ decimalValue 0 (afterSign s.data) then (maxInt64, some .ErrRange)
         else ((decimalValue 0 (afterSign s.data) : Int), none)) := by
  unfold ParseInt
  cases hs : s.data with
  | nil => simp [afterSign, decimalValue]
  | cons c cs =>
    have hrest : (if c = '+' then cs else if c = '-' then cs else c :: cs)
        = afterSign (c :: cs) := by
      simp only [afterSign]
      split_ifs <;> simp_all
    refine (ParseInt_tail (decide (c = '-')) _).trans ?_
    rw [hrest]
    simp only [List.head?_cons, Option.some.injEq, decide_eq_true_eq]


/-- The code of the character written for the digit `k`. -/
theorem digitChar_toNat (k : Nat) (hk : k < 10) : (Char.ofNat (48 + k)).toNat = 48 + k := by
  interval_cases k <;> rfl

/-- Reading `a ++ b` is reading `a`, then `b`. -/
theorem decimalValue_append (n : Nat) (a b : List Char) :
    decimalValue n (a ++ b) = decimalValue (decimalValue n a) b := by
  simp [decimalValue, List.foldl_append]

/-- With enough fuel for the digits of `u`, `formatBits` writes in front of
`acc` a non-empty list of decimal digits whose value is `u`. -/
theorem formatBits_spec (fuel u : Nat) (acc : List Char) (hf : 0 < fuel) (hu : u < 10 ^ fuel) :
    ∃ ds, formatBits fuel u acc = ds ++ acc ∧ ds ≠ [] ∧ ds.all isDecimalDigit = true ∧
      decimalValue 0 ds = u := by
  induction fuel generalizing u acc with
  | zero => exact absurd hf (Nat.lt_irrefl 0)
  | succ fuel ih =>
    by_cases h10 : u < 10
    · refine ⟨[Char.ofNat (48 + u)], ?_, by simp, ?_, ?_⟩
      · simp [formatBits, h10]
      · simp [isDecimalDigit, digitChar_toNat u h10]
        omega
      · simp [decimalValue, digitChar_toNat u h10]
    · have hlt : u / 10 < 10 ^ fuel := by
        rw [Nat.div_lt_iff_lt_mul (by decide)]
        rw [pow_succ] at hu
        exact hu
      have hpos : 0 < fuel := by
        rcases Nat.eq_zero_or_pos fuel with h | h
        · subst h
          simp at hlt
          omega
        · exact h
      obtain ⟨ds, h1, h2, h3, h4⟩ := ih (u / 10) (Char.ofNat (48 + u % 10) :: acc) hpos hlt
      have hmod : u % 10 < 10 := Nat.mod_lt _ (by decide)
      refine ⟨ds ++ [Char.ofNat (48 + u % 10)], ?_, by simp, ?_, ?_⟩
      · simp [formatBits, h10, h1]
      · simp only [List.all_append, h3, Bool.true_and, List.all_cons, List.all_nil, Bool.and_true]
        simp [isDecimalDigit, digitChar_toNat _ hmod]
        omega
      · rw [decimalValue_append, h4]
        simp only [decimalValue, List.foldl_cons, List.foldl_nil, digitChar_toNat _ hmod]
        omega

/-- The leading digits of a list of digits are the whole list. -/
theorem takeWhile_digits (ds : List Char) (h : ds.all isDecimalDigit = true) :
    ds.takeWhile isDecimalDigit = ds := by
  rw [List.takeWhile_eq_self_iff]
  simpa using h

/-- A list of digits has no sign to pick off. -/
theorem afterSign_digits (ds : List Char) (h : ds.all isDecimalDigit = true) :
    afterSign ds = ds ∧ ds.head? ≠ some '-' := by
  cases ds with
  | nil => simp [afterSign]
  | cons c cs =>
    have hc : isDecimalDigit c = true := by
      simp only [List.all_cons, Bool.and_eq_true] at h
      exact h.1
    have h1 : c ≠ '+' := by
      rintro rfl
      revert hc
      decide
    have h2 : c ≠ '-' := by
      rintro rfl
      revert hc
      decide
    simp [afterSign, h1, h2]

/-- `strconv.ParseInt` on a numeral without sign below `2 ^ 63`. -/
theorem ParseInt_digits (ds : List Char) (h0 : ds ≠ []) (h : ds.all isDecimalDigit = true)
    (hv : decimalValue 0 ds < 2 ^ 63) :
    ParseInt (String.mk ds) = ((decimalValue 0 ds : Int), none) := by
  obtain ⟨ha, hh⟩ := afterSign_digits ds h
  have hm : ¬ maxUint64 < decimalValue 0 ds := by
    rw [maxUint64_eq]
    omega
  have hs : ¬ (ds = [] ∨ ds.all isDecimalDigit = false) := by simp [h0, h]
  rw [ParseInt_spec]
  simp only [ha, takeWhile_digits ds h]
  rw [if_neg hm, if_neg hs, if_neg hh, if_neg (by omega)]

/-- `strconv.ParseInt` on a numeral with the sign `-` and at most `2 ^ 63`. -/
theorem ParseInt_minus_digits (ds : List Char) (h0 : ds ≠ [])
    (h : ds.all isDecimalDigit = true) (hv : decimalValue 0 ds ≤ 2 ^ 63) :
    ParseInt (String.mk ('-' :: ds)) = (-(decimalValue 0 ds : Int), none) := by
  have ha : afterSign ('-' :: ds) = ds := by simp [afterSign]
  have hm : ¬ maxUint64 < decimalValue 0 ds := by
    rw [maxUint64_eq]
    omega
  have hs : ¬ (ds = [] ∨ ds.all isDecimalDigit = false) := by simp [h0, h]
  rw [ParseInt_spec]
  simp only [ha, takeWhile_digits ds h, List.head?_cons]
  rw [if_neg hm, if_neg hs, if_pos trivial, if_neg (by omega)]

/-- `strconv.ParseInt` reads back what `strconv.FormatInt` writes for an `int64`;
the fuel of `FormatInt`, twenty digits, is enough for every `int64`. -/
theorem ParseInt_FormatInt (i : Int) (hlo : minInt64 ≤ i) (hhi : i ≤ maxInt64) :
    ParseInt (FormatInt i) = (i, none) := by
  simp only [minInt64, maxInt64] at hlo hhi
  unfold FormatInt
  by_cases hi : i < 0
  · rw [if_pos hi]
    obtain ⟨ds, h1, h2, h3, h4⟩ := formatBits_spec 20 (-i).toNat [] (by decide) (by omega)
    rw [List.append_nil] at h1
    rw [h1, ParseInt_minus_digits ds h2 h3 (by omega), h4]
    congr 1
    omega
  · rw [if_neg hi]
    obtain ⟨ds, h1, h2, h3, h4⟩ := formatBits_spec 20 i.toNat [] (by decide) (by omega)
    rw [List.append_nil] at h1
    rw [h1, ParseInt_digits ds h2 h3 (by omega), h4]
    congr 1
    omega

/-! ## Requests and outcomes of Read, Update and Delete -/

/-- `resourceNetboxClusterGroupRead` issues one read request, for the parsed ID. -/
theorem clusterGroupRead_trace (api : ClusterGroupAPI) (d : ClusterGroupData) :
    (resourceNetboxClusterGroupRead api d).trace = [.read (ParseInt d.id).1] := by
  unfold resourceNetboxClusterGroupRead
  simp only []
  split
  · split
    · split <;> rfl
    · rfl
  · rfl

/-- `resourceNetboxDeviceRoleRead` issues one read request, for the parsed ID. -/
theorem deviceRoleRead_trace (api : DeviceRoleAPI) (d : DeviceRoleData) :
    (resourceNetboxDeviceRoleRead api d).trace = [.read (ParseInt d.id).1] := by
  unfold resourceNetboxDeviceRoleRead
  simp only []
  split
  · split
    · split <;> rfl
    · rfl
  · rfl

/-- `resourceNetboxCustomFieldRead` issues one read request, for the parsed ID. -/
theorem customFieldRead_trace (api : CustomFieldAPI) (d : CustomFieldData) :
    (resourceNetboxCustomFieldRead api d).trace = [.read (ParseInt d.id).1] := by
  unfold resourceNetboxCustomFieldRead
  simp only []
  split
  · split
    · rfl
    · split <;> rfl
  · split <;> rfl

/-- No outcome of `resourceNetboxClusterGroupRead` is a `fmt.Errorf` error. -/
theorem clusterGroupRead_out_ne_errorf (api : ClusterGroupAPI) (d : ClusterGroupData)
    (msg : String) : (resourceNetboxClusterGroupRead api d).out ≠ .errorf msg := by
  unfold resourceNetboxClusterGroupRead
  simp only []
  split
  · split
    · split <;> simp
    · simp
  · simp

/-- No outcome of `resourceNetboxDeviceRoleRead` is a `fmt.Errorf` error. -/
theorem deviceRoleRead_out_ne_errorf (api : DeviceRoleAPI) (d : DeviceRoleData)
    (msg : String) : (resourceNetboxDeviceRoleRead api d).out ≠ .errorf msg := by
  unfold resourceNetboxDeviceRoleRead
  simp only []
  split
  · split
    · split <;> simp
    · simp
  · simp

/-- `resourceNetboxClusterGroupDelete` issues one delete request, for the parsed
ID, and makes no error of its own. -/
theorem clusterGroupDelete_eq (api : ClusterGroupAPI) (d : ClusterGroupData) :
    (resourceNetboxClusterGroupDelete api d).trace = [.delete (ParseInt d.id).1] ∧
    ∀ msg, (resourceNetboxClusterGroupDelete api d).out ≠ .errorf msg := by
  unfold resourceNetboxClusterGroupDelete
  simp only []
  split <;> simp

/-- `resourceNetboxDeviceRoleDelete` issues one delete request, for the parsed ID,
and makes no error of its own. -/
theorem deviceRoleDelete_eq (api : DeviceRoleAPI) (d : DeviceRoleData) :
    (resourceNetboxDeviceRoleDelete api d).trace = [.delete (ParseInt d.id).1] ∧
    ∀ msg, (resourceNetboxDeviceRoleDelete api d).out ≠ .errorf msg := by
  unfold resourceNetboxDeviceRoleDelete
  simp only []
  split <;> simp

/-- `resourceNetboxCustomFieldDelete` issues one delete request, for the parsed
ID, and makes no error of its own. -/
theorem customFieldDelete_eq (api : CustomFieldAPI) (d : CustomFieldData) :
    (resourceNetboxCustomFieldDelete api d).trace = [.delete (ParseInt d.id).1] ∧
    ∀ msg, (resourceNetboxCustomFieldDelete api d).out ≠ .errorf msg := by
  unfold resourceNetboxCustomFieldDelete
  simp only []
  split <;> simp

/-- No outcome of `resourceNetboxClusterGroupUpdate` is a `fmt.Errorf` error. -/
theorem clusterGroupUpdate_out_ne_errorf (api : ClusterGroupAPI) (d : ClusterGroupData)
    (msg : String) : (resourceNetboxClusterGroupUpdate api d).out ≠ .errorf msg := by
  rw [clusterGroupUpdate_eq]
  split
  · simp
  · exact clusterGroupRead_out_ne_errorf _ _ _

/-- No outcome of `resourceNetboxDeviceRoleUpdate` is a `fmt.Errorf` error. -/
theorem deviceRoleUpdate_out_ne_errorf (api : DeviceRoleAPI) (d : DeviceRoleData)
    (msg : String) : (resourceNetboxDeviceRoleUpdate api d).out ≠ .errorf msg := by
  rw [deviceRoleUpdate_eq]
  split
  · simp
  · exact deviceRoleRead_out_ne_errorf _ _ _

/-- The only `fmt.Errorf` error of `resourceNetboxCustomFieldUpdate` comes from
its guard on the choices. -/
theorem customFieldUpdate_out_errorf (api : CustomFieldAPI) (d : CustomFieldData)
    (msg : String) (h : (resourceNetboxCustomFieldUpdate api d).out = .errorf msg) :
    customFieldRejects d = true := by
  rw [customFieldUpdate_eq] at h
  cases hr : customFieldRejects d with
  | true => rfl
  | false =>
    rw [hr] at h
    simp only [Bool.false_eq_true, if_false] at h
    cases hc : api.update (ParseInt d.id).1 (customFieldData d) with
    | error e => rw [hc] at h; simp at h
    | ok res =>
      rw [hc] at h
      exact absurd h (customFieldRead_out_ne_errorf _ _ _)

/-- `resourceNetboxCustomFieldRead` uses the read call of the client only. -/
theorem customFieldRead_congr (api api2 : CustomFieldAPI) (h : api.read = api2.read)
    (d : CustomFieldData) :
    resourceNetboxCustomFieldRead api d = resourceNetboxCustomFieldRead api2 d := by
  unfold resourceNetboxCustomFieldRead
  rw [h]

/-! ## Resource IDs -/

/-- C11: for every `int64` value `i`, `strconv.ParseInt` reads the string that
`strconv.FormatInt` writes for `i` back as `i`, without an error.  Hence the
read that follows a create call answered with the ID `i` targets `i`, and on
resource data whose ID is the string stored for `i`, every request of Read,
Update and Delete targets `i`. -/
theorem created_id_round_trips (i : Int) (hlo : minInt64 ≤ i) (hhi : i ≤ maxInt64) :
    ParseInt (FormatInt i) = (i, none) ∧
    (∀ (api : ClusterGroupAPI) (d : ClusterGroupData) (data res : ClusterGroup),
      (resourceNetboxClusterGroupCreate api d).trace.head? = some (.create data) →
      api.create data = .ok res → res.ID = i →
      (resourceNetboxClusterGroupCreate api d).trace = [.create data, .read i]) ∧
    (∀ (api : DeviceRoleAPI) (d : DeviceRoleData) (data res : DeviceRole),
      (resourceNetboxDeviceRoleCreate api d).trace.head? = some (.create data) →
      api.create data = .ok res → res.ID = i →
      (resourceNetboxDeviceRoleCreate api d).trace = [.create data, .read i]) ∧
    (∀ (api : CustomFieldAPI) (d : CustomFieldData) (data : WritableCustomField)
      (res : CustomField),
      (resourceNetboxCustomFieldCreate api d).trace.head? = some (.create data) →
      api.create data = .ok res → res.ID = i →
      (resourceNetboxCustomFieldCreate api d).trace = [.create data, .read i]) ∧
    (∀ (api : ClusterGroupAPI) (d : ClusterGroupData), d.id = FormatInt i →
      (resourceNetboxClusterGroupRead api d).trace = [.read i] ∧
      (resourceNetboxClusterGroupDelete api d).trace = [.delete i] ∧
      ∃ data,
        (resourceNetboxClusterGroupUpdate api d).trace = [.partialUpdate i data] ∨
        (resourceNetboxClusterGroupUpdate api d).trace = [.partialUpdate i data, .read i]) ∧
    (∀ (api : DeviceRoleAPI) (d : DeviceRoleData), d.id = FormatInt i →
      (resourceNetboxDeviceRoleRead api d).trace = [.read i] ∧
      (resourceNetboxDeviceRoleDelete api d).trace = [.delete i] ∧
      ∃ data,
        (resourceNetboxDeviceRoleUpdate api d).trace = [.partialUpdate i data] ∨
        (resourceNetboxDeviceRoleUpdate api d).trace = [.partialUpdate i data, .read i]) ∧
    (∀ (api : CustomFieldAPI) (d : CustomFieldData), d.id = FormatInt i →
      (resourceNetboxCustomFieldRead api d).trace = [.read i] ∧
      (resourceNetboxCustomFieldDelete api d).trace = [.delete i] ∧
      ((resourceNetboxCustomFieldUpdate api d).out = .errorf choicesError ∨
        ∃ data,
          (resourceNetboxCustomFieldUpdate api d).trace.head? = some (.update i data) ∧
          (∀ e, api.update i data = .error e →
            (resourceNetboxCustomFieldUpdate api d).trace = [.update i data]) ∧
          (∀ res, api.update i data = .ok res → res.ID = i →
            (resourceNetboxCustomFieldUpdate api d).trace = [.update i data, .read i]))) := by
  have hrt := ParseInt_FormatInt i hlo hhi
  refine ⟨hrt, ?_, ?_, ?_, ?_, ?_, ?_⟩
  · intro api d data res h1 h2 h3
    obtain ⟨rest, ht⟩ := clusterGroupCreate_trace api d
    rw [ht] at h1
    simp only [List.head?_cons, Option.some.injEq, ClusterGroupCall.create.injEq] at h1
    subst h1
    rw [clusterGroupCreate_eq, h2]
    simp only [clusterGroupRead_trace, h3, hrt]
  · intro api d data res h1 h2 h3
    obtain ⟨rest, ht⟩ := deviceRoleCreate_trace api d
    rw [ht] at h1
    simp only [List.head?_cons, Option.some.injEq, DeviceRoleCall.create.injEq] at h1
    subst h1
    rw [deviceRoleCreate_eq, h2]
    simp only [deviceRoleRead_trace, h3, hrt]
  · intro api d data res h1 h2 h3
    cases hr : customFieldRejects d with
    | true =>
      rw [customFieldCreate_eq, hr] at h1
      simp at h1
    | false =>
      obtain ⟨rest, ht⟩ := customFieldCreate_trace api d hr
      rw [ht] at h1
      simp only [List.head?_cons, Option.some.injEq, CustomFieldCall.create.injEq] at h1
      subst h1
      rw [customFieldCreate_eq, hr, h2]
      simp only [customFieldRead_trace, h3, hrt, Bool.false_eq_true, if_false]
  · intro api d hd
    have hp : (ParseInt d.id).1 = i := by rw [hd, hrt]
    refine ⟨?_, ?_, ?_⟩
    · rw [clusterGroupRead_trace, hp]
    · rw [(clusterGroupDelete_eq api d).1, hp]
    · refine ⟨clusterGroupUpdateData d, ?_⟩
      rw [clusterGroupUpdate_eq, hp]
      cases api.partialUpdate i (clusterGroupUpdateData d) with
      | error e => exact Or.inl rfl
      | ok res =>
        refine Or.inr ?_
        simp only [clusterGroupRead_trace, hp]
  · intro api d hd
    have hp : (ParseInt d.id).1 = i := by rw [hd, hrt]
    refine ⟨?_, ?_, ?_⟩
    · rw [deviceRoleRead_trace, hp]
    · rw [(deviceRoleDelete_eq api d).1, hp]
    · refine ⟨deviceRoleData d, ?_⟩
      rw [deviceRoleUpdate_eq, hp]
      cases api.partialUpdate i (deviceRoleData d) with
      | error e => exact Or.inl rfl
      | ok res =>
        refine Or.inr ?_
        simp only [deviceRoleRead_trace, hp]
  · intro api d hd
    have hp : (ParseInt d.id).1 = i := by rw [hd, hrt]
    refine ⟨?_, ?_, ?_⟩
    · rw [customFieldRead_trace, hp]
    · rw [(customFieldDelete_eq api d).1, hp]
    · cases hr : customFieldRejects d with
      | true => exact Or.inl ((customFieldUpdate_out_iff api d).2 hr)
      | false =>
        refine Or.inr ⟨customFieldData d, ?_, ?_, ?_⟩
        · obtain ⟨rest, ht⟩ := customFieldUpdate_trace api d hr
          rw [ht, hp]
          rfl
        · intro e he
          rw [customFieldUpdate_eq, hr, hp, he]
          simp
        · intro res hres hid
          rw [customFieldUpdate_eq, hr, hp, hres]
          simp only [customFieldRead_trace, hid, hrt, Bool.false_eq_true, if_false]

/-- C11 at the smallest `int64`, and at the sample cluster group, whose ID is
the string stored for 7. -/
theorem created_id_round_trips_witness :
    minInt64 ≤ -9223372036854775808 ∧ (-9223372036854775808 : Int) ≤ maxInt64 ∧
    FormatInt (-9223372036854775808) = "-9223372036854775808" ∧
    ParseInt (FormatInt (-9223372036854775808)) = (-9223372036854775808, none) ∧
    sampleClusterGroup.id = FormatInt 7 ∧
    (resourceNetboxClusterGroupRead (clusterGroupApiFailing (.readDefault 500))
      sampleClusterGroup).trace = [.read 7] :=
  ⟨by decide, by decide, by decide,
    (created_id_round_trips (-9223372036854775808) (by decide) (by decide)).1,
    by decide,
    ((created_id_round_trips 7 (by decide) (by decide)).2.2.2.2.1
      (clusterGroupApiFailing (.readDefault 500)) sampleClusterGroup (by decide)).1⟩

/-- C12, as stated, fails.  The ID "99999999999999999999x" is not a decimal
numeral, yet the digits before the `x` overflow 64 bits, `strconv.ParseInt`
reports a range error, and `resourceNetboxClusterGroupRead` issues its request
against the largest `int64`, not against 0.  And on the ID "abc",
`resourceNetboxCustomFieldUpdate` issues no request at all when the resource
data has choices on a field that is no selection field. -/
theorem malformed_id_request_not_against_zero :
    'x' ∈ overflowIdClusterGroup.id.data ∧
    ParseInt overflowIdClusterGroup.id = (9223372036854775807, some .ErrRange) ∧
    (resourceNetboxClusterGroupRead (clusterGroupApiFailing (.readDefault 500))
      overflowIdClusterGroup).trace = [.read 9223372036854775807] ∧
    ParseInt rejectedCustomField.id = (0, some .ErrSyntax) ∧
    (resourceNetboxCustomFieldUpdate (customFieldApiFailing (.readDefault 500))
      rejectedCustomField).trace = [] := by
  refine ⟨by decide, by decide, by decide, by decide, by decide⟩

/-- C12, amended: Read, Delete and Update of the three resources issue their
request against the value that `strconv.ParseInt` gives for the ID string,
whatever error it reports, and never end with an error of their own making
(`resourceNetboxCustomFieldUpdate` does both when it does not reject the
resource data for its choices).  For an ID string `s`, with `afterSign s.data`
its characters after an optional sign: that value is 0, with a syntax error,
when these characters are none or not all decimal digits and the digits in
front of them do not exceed `maxUint64`; it is the largest `int64`, or the
smallest when the sign is `-`, with a range error, when the leading digits
exceed `maxUint64`, whatever follows them, or when the characters are a decimal
numeral beyond the range of `int64`; and it is the number written, with no
error, exactly in the remaining case of a numeral within the range. -/
theorem malformed_id_requests (cgApi : ClusterGroupAPI) (cg : ClusterGroupData)
    (drApi : DeviceRoleAPI) (dr : DeviceRoleData)
    (cfApi : CustomFieldAPI) (cf : CustomFieldData) (s : String) :
    ((resourceNetboxClusterGroupRead cgApi cg).trace = [.read (ParseInt cg.id).1] ∧
      (∀ m, (resourceNetboxClusterGroupRead cgApi cg).out ≠ .errorf m) ∧
      (resourceNetboxClusterGroupDelete cgApi cg).trace = [.delete (ParseInt cg.id).1] ∧
      (∀ m, (resourceNetboxClusterGroupDelete cgApi cg).out ≠ .errorf m) ∧
      (∃ data rest, (resourceNetboxClusterGroupUpdate cgApi cg).trace
        = .partialUpdate (ParseInt cg.id).1 data :: rest) ∧
      (∀ m, (resourceNetboxClusterGroupUpdate cgApi cg).out ≠ .errorf m)) ∧
    ((resourceNetboxDeviceRoleRead drApi dr).trace = [.read (ParseInt dr.id).1] ∧
      (∀ m, (resourceNetboxDeviceRoleRead drApi dr).out ≠ .errorf m) ∧
      (resourceNetboxDeviceRoleDelete drApi dr).trace = [.delete (ParseInt dr.id).1] ∧
      (∀ m, (resourceNetboxDeviceRoleDelete drApi dr).out ≠ .errorf m) ∧
      (∃ data rest, (resourceNetboxDeviceRoleUpdate drApi dr).trace
        = .partialUpdate (ParseInt dr.id).1 data :: rest) ∧
      (∀ m, (resourceNetboxDeviceRoleUpdate drApi dr).out ≠ .errorf m)) ∧
    ((resourceNetboxCustomFieldRead cfApi cf).trace = [.read (ParseInt cf.id).1] ∧
      (∀ m, (resourceNetboxCustomFieldRead cfApi cf).out ≠ .errorf m) ∧
      (resourceNetboxCustomFieldDelete cfApi cf).trace = [.delete (ParseInt cf.id).1] ∧
      (∀ m, (resourceNetboxCustomFieldDelete cfApi cf).out ≠ .errorf m) ∧
      ((cf.choices = [] ∨ getString cf.type = "select" ∨ getString cf.type = "multiselect") →
        (∃ data rest, (resourceNetboxCustomFieldUpdate cfApi cf).trace
          = .update (ParseInt cf.id).1 data :: rest) ∧
        (∀ m, (resourceNetboxCustomFieldUpdate cfApi cf).out ≠ .errorf m))) ∧
    ((afterSign s.data = [] ∨ (afterSign s.data).all isDecimalDigit = false) →
      decimalValue 0 ((afterSign s.data).takeWhile isDecimalDigit) ≤ maxUint64 →
      ParseInt s = (0, some .ErrSyntax)) ∧
    (maxUint64 < decimalValue 0 ((afterSign s.data).takeWhile isDecimalDigit) →
      ParseInt s = (if s.data.head? = some '-' then minInt64 else maxInt64, some .ErrRange)) ∧
    (afterSign s.data ≠ [] → (afterSign s.data).all isDecimalDigit = true →
      (s.data.head? ≠ some '-' → 2 ^ 63 ≤ decimalValue 0 (afterSign s.data) →
        ParseInt s = (maxInt64, some .ErrRange)) ∧
      (s.data.head? = some '-' → 2 ^ 63 < decimalValue 0 (afterSign s.data) →
        ParseInt s = (minInt64, some .ErrRange)) ∧
      (s.data.head? ≠ some '-' → decimalValue 0 (afterSign s.data) < 2 ^ 63 →
        ParseInt s = ((decimalValue 0 (afterSign s.data) : Int), none)) ∧
      (s.data.head? = some '-' → decimalValue 0 (afterSign s.data) ≤ 2 ^ 63 →
        ParseInt s = (-(decimalValue 0 (afterSign s.data) : Int), none))) := by
  refine ⟨⟨clusterGroupRead_trace _ _, clusterGroupRead_out_ne_errorf _ _,
      (clusterGroupDelete_eq _ _).1, (clusterGroupDelete_eq _ _).2,
      ?_, clusterGroupUpdate_out_ne_errorf _ _⟩,
    ⟨deviceRoleRead_trace _ _, deviceRoleRead_out_ne_errorf _ _,
      (deviceRoleDelete_eq _ _).1, (deviceRoleDelete_eq _ _).2,
      ?_, deviceRoleUpdate_out_ne_errorf _ _⟩,
    ⟨customFieldRead_trace _ _, customFieldRead_out_ne_errorf _ _,
      (customFieldDelete_eq _ _).1, (customFieldDelete_eq _ _).2, ?_⟩, ?_, ?_, ?_⟩
  · obtain ⟨rest, h⟩ := clusterGroupUpdate_trace cgApi cg
    exact ⟨_, rest, h⟩
  · obtain ⟨rest, h⟩ := deviceRoleUpdate_trace drApi dr
    exact ⟨_, rest, h⟩
  · intro h
    have hr : customFieldRejects cf = false := by
      rw [Bool.eq_false_iff, Ne, customFieldRejects_iff]
      rintro ⟨h1, h2, h3⟩
      rcases h with h | h | h
      · exact h1 h
      · exact h2 h
      · exact h3 h
    obtain ⟨rest, ht⟩ := customFieldUpdate_trace cfApi cf hr
    refine ⟨⟨_, rest, ht⟩, fun m hm => ?_⟩
    have := customFieldUpdate_out_errorf cfApi cf m hm
    rw [hr] at this
    exact Bool.noConfusion this
  · intro hs hv
    rw [ParseInt_spec, if_neg (Nat.not_lt.2 hv), if_pos hs]
  · intro hv
    rw [ParseInt_spec, if_pos hv]
  · intro h0 hall
    have htw := takeWhile_digits _ hall
    have hs : ¬ (afterSign s.data = [] ∨ (afterSign s.data).all isDecimalDigit = false) := by
      simp [h0, hall]
    refine ⟨?_, ?_, ?_, ?_⟩
    · intro hneg hr
      rw [ParseInt_spec]
      by_cases hv : maxUint64 < decimalValue 0 ((afterSign s.data).takeWhile isDecimalDigit)
      · rw [if_pos hv, if_neg hneg]
      · rw [if_neg hv, if_neg hs, if_neg hneg, if_pos hr]
    · intro hneg hr
      rw [ParseInt_spec]
      by_cases hv : maxUint64 < decimalValue 0 ((afterSign s.data).takeWhile isDecimalDigit)
      · rw [if_pos hv, if_pos hneg]
      · rw [if_neg hv, if_neg hs, if_pos hneg, if_pos hr]
    · intro hneg hr
      have hv : ¬ maxUint64 < decimalValue 0 ((afterSign s.data).takeWhile isDecimalDigit) := by
        rw [htw, maxUint64_eq]
        omega
      rw [ParseInt_spec, if_neg hv, if_neg hs, if_neg hneg, if_neg (by omega)]
    · intro hneg hr
      have hv : ¬ maxUint64 < decimalValue 0 ((afterSign s.data).takeWhile isDecimalDigit) := by
        rw [htw, maxUint64_eq]
        omega
      rw [ParseInt_spec, if_neg hv, if_neg hs, if_pos hneg, if_neg (by omega)]

/-- C12, amended, at the custom field under the ID "abc" and at five ID
strings: the empty one, a numeral with a trailing letter, the two numerals next
to the range of `int64`, and overflowing digits with a trailing letter. -/
theorem malformed_id_requests_witness :
    (resourceNetboxCustomFieldDelete (customFieldApiFailing (.readDefault 500))
      rejectedCustomField).trace = [.delete (ParseInt rejectedCustomField.id).1] ∧
    ParseInt rejectedCustomField.id = (0, some .ErrSyntax) ∧
    ParseInt "" = (0, some .ErrSyntax) ∧
    ParseInt "12a" = (0, some .ErrSyntax) ∧
    ParseInt "9223372036854775808" = (maxInt64, some .ErrRange) ∧
    ParseInt "-9223372036854775809" = (minInt64, some .ErrRange) ∧
    ParseInt "99999999999999999999x" = (maxInt64, some .ErrRange) :=
  have h := fun s => malformed_id_requests (clusterGroupApiFailing (.readDefault 500))
    sampleClusterGroup (deviceRoleApiFailing (.readDefault 500)) sampleDeviceRole
    (customFieldApiFailing (.readDefault 500)) rejectedCustomField s
  ⟨(h "").2.2.1.2.2.1,
    (h "abc").2.2.2.1 (by decide) (by decide),
    (h "").2.2.2.1 (by decide) (by decide),
    (h "12a").2.2.2.1 (by decide) (by decide),
    ((h "9223372036854775808").2.2.2.2.2 (by decide) (by decide)).1 (by decide) (by decide),
    ((h "-9223372036854775809").2.2.2.2.2 (by decide) (by decide)).2.1 (by decide) (by decide),
    (h "99999999999999999999x").2.2.2.2.1 (by decide)⟩

/-! ## Create and Update of a custom field -/

/-- C13: `resourceNetboxCustomFieldCreate` and `resourceNetboxCustomFieldUpdate`
issue no request on the same resource data and end with the choices error on
the same resource data; the body of the create request is the body of the
update request, which is addressed to the parsed ID; and the result of Update is
the result of Create run against a client that answers the create request as
the given client answers the update request for the parsed ID, with the create
request in the trace read as that update request. -/
theorem customField_update_is_create_at_id (api : CustomFieldAPI) (d : CustomFieldData) :
    ((resourceNetboxCustomFieldCreate api d).trace = [] ↔
      (resourceNetboxCustomFieldUpdate api d).trace = []) ∧
    ((resourceNetboxCustomFieldCreate api d).out = .errorf choicesError ↔
      (resourceNetboxCustomFieldUpdate api d).out = .errorf choicesError) ∧
    (∀ data, (resourceNetboxCustomFieldCreate api d).trace.head? = some (.create data) ↔
      (resourceNetboxCustomFieldUpdate api d).trace.head?
        = some (.update (ParseInt d.id).1 data)) ∧
    resourceNetboxCustomFieldUpdate api d =
      ⟨(resourceNetboxCustomFieldCreate
          { api with create := fun data => api.update (ParseInt d.id).1 data } d).d,
        (resourceNetboxCustomFieldCreate
          { api with create := fun data => api.update (ParseInt d.id).1 data } d).trace.map
            (CustomFieldCall.asUpdateOf (ParseInt d.id).1),
        (resourceNetboxCustomFieldCreate
          { api with create := fun data => api.update (ParseInt d.id).1 data } d).out⟩ := by
  refine ⟨?_, ?_, ?_, ?_⟩
  · rw [customFieldCreate_eq, customFieldUpdate_eq]
    cases hr : customFieldRejects d with
    | true => simp
    | false =>
      simp only [Bool.false_eq_true, if_false]
      constructor <;> intro h
      · revert h; split <;> simp
      · revert h; split <;> simp
  · rw [customFieldCreate_out_iff, customFieldUpdate_out_iff]
  · intro data
    cases hr : customFieldRejects d with
    | true =>
      rw [customFieldCreate_eq, customFieldUpdate_eq, hr]
      simp
    | false =>
      obtain ⟨r1, h1⟩ := customFieldCreate_trace api d hr
      obtain ⟨r2, h2⟩ := customFieldUpdate_trace api d hr
      rw [h1, h2]
      simp
  · rw [customFieldCreate_eq, customFieldUpdate_eq]
    cases hr : customFieldRejects d with
    | true => simp
    | false =>
      simp only [Bool.false_eq_true, if_false]
      cases hc : api.update (ParseInt d.id).1 (customFieldData d) with
      | error e => simp [CustomFieldCall.asUpdateOf]
      | ok res =>
        have hread := customFieldRead_congr
          { api with create := fun data => api.update (ParseInt d.id).1 data } api rfl
          { d with id := FormatInt res.ID }
        simp only [hread, customFieldRead_trace, List.map_cons, List.map_nil,
          CustomFieldCall.asUpdateOf]

end Netbox
